import Mathlib

/-!
Shallow embedding of the desktop Google OAuth flow of the
tauri-plugin-google-auth repository (files `src/desktop.rs`,
`src/models.rs`, `src/error.rs`).

Blocking I/O and OS effects (socket bind, browser launch, the single
accepted connection, stream reads and writes, the worker-thread HTTP
exchanges, the wall clock) are represented by environment records that
supply the outcome of each effect.  Every public operation returns its
result together with the ordered list of externally visible effects it
performed.  URL and query-string parsing, which the Rust code delegates
to the `url` crate, is modelled concretely for the http-style URLs this
flow handles (scheme://host:port/path?query, ASCII hosts, form-urlencoded
query pairs with percent and plus decoding).
-/

/-- Decidable equality on `Except`, so that concrete runs of the model
can be checked by evaluation. -/
instance {ε α : Type} [DecidableEq ε] [DecidableEq α] : DecidableEq (Except ε α) := fun x y =>
  match x, y with
  | Except.error e₁, Except.error e₂ =>
    if h : e₁ = e₂ then isTrue (by rw [h]) else isFalse (by simp [h])
  | Except.error _, Except.ok _ => isFalse (by simp)
  | Except.ok _, Except.error _ => isFalse (by simp)
  | Except.ok a₁, Except.ok a₂ =>
    if h : a₁ = a₂ then isTrue (by rw [h]) else isFalse (by simp [h])

/-- Mirrors enum `FlowType` of `models.rs`. -/
inductive FlowType
  | native
  | web
deriving DecidableEq, Repr

/-- Mirrors struct `SignInRequest` of `models.rs`. -/
structure SignInRequest where
  clientId : String
  clientSecret : Option String
  scopes : Option (List String)
  hostedDomain : Option String
  loginHint : Option String
  redirectUri : Option String
  successHtmlResponse : Option String
  flowType : Option FlowType
deriving Repr

/-- Mirrors struct `TokenResponse` of `models.rs`. -/
structure TokenResponse where
  idToken : Option String
  accessToken : String
  scopes : List String
  refreshToken : Option String
  expiresAt : Option Int
deriving DecidableEq, Repr

/-- Mirrors struct `SignOutRequest` of `models.rs`. -/
structure SignOutRequest where
  accessToken : Option String
  flowType : Option FlowType
deriving Repr

/-- Mirrors struct `SignOutResponse` of `models.rs`. -/
structure SignOutResponse where
  success : Bool
deriving DecidableEq, Repr

/-- Mirrors struct `RefreshTokenRequest` of `models.rs`. -/
structure RefreshTokenRequest where
  refreshToken : Option String
  clientId : String
  clientSecret : Option String
  scopes : Option (List String)
  flowType : Option FlowType
deriving Repr

/-- Mirrors enum `Error` of `error.rs`.  The `Io` variant is transparent
over `std::io::Error`; here it carries the message of the underlying I/O
failure.  The mobile-only `PluginInvoke` variant is outside the desktop
flow and omitted. -/
inductive Error
  | IoError (msg : String)
  | AuthenticationFailed (msg : String)
  | UserCancelled
  | NoUserSignedIn
  | InvalidClientId
  | TokenRefreshFailed (msg : String)
  | NetworkError (msg : String)
  | ConfigurationError (msg : String)
deriving DecidableEq, Repr

/-- The redirect policy a reqwest HTTP client is built with.  The code in
`desktop.rs` always passes `redirect::Policy::none()`, modelled as
`noFollow`. -/
inductive RedirectPolicy
  | follow
  | noFollow
deriving DecidableEq, Repr

/-- Externally visible effects of the desktop flow, in program order:
binding the loopback TCP listener with the requested port (0 requests an
OS-assigned ephemeral port), opening the system browser on a URL,
accepting the single redirect connection, writing HTTP response bytes to
that connection, and issuing an HTTP request to an endpoint through a
client built with the given redirect policy. -/
inductive Event
  | bind (port : Nat)
  | openBrowser (url : String)
  | accept
  | writeResponse (bytes : String)
  | httpRequest (endpoint : String) (policy : RedirectPolicy)
deriving DecidableEq, Repr

/-- Outcome of a `std::thread::spawn(..).join()` worker in `desktop.rs`:
the join itself fails (`panicked`), building the reqwest client fails
(`buildFailed`), the HTTP request fails in transport (`requestFailed`),
or the request completes with value `val` (status or parsed body). -/
inductive WorkerOutcome (α : Type)
  | panicked
  | buildFailed (msg : String)
  | requestFailed (msg : String)
  | ok (val : α)
deriving DecidableEq, Repr

/-- The fields of a completed token-endpoint response as the oauth2 crate
exposes them to `desktop.rs`: `access_token`, optional `refresh_token`,
the `id_token` extra field of `GoogleTokenFields`, optional granted
`scopes`, and the relative `expires_in` duration in seconds. -/
structure ProviderTokenResponse where
  accessToken : String
  refreshToken : Option String
  idToken : Option String
  scopes : Option (List String)
  expiresIn : Option Nat
deriving DecidableEq, Repr

/-- Effect outcomes for one `sign_in` call.  `csrfToken`, `pkceChallenge`
and `pkceVerifier` are the random values drawn by `CsrfToken::new_random`
and `PkceCodeChallenge::new_random_sha256`.  `bind p` is the OS response
to binding `127.0.0.1:p` followed by the `local_addr` port query (the
bound port on success).  `connectionAccepted` tells whether
`listener.incoming()` yields a stream; `readLine` is the request line
read from it (an I/O error otherwise); `writeAll` is the outcome of
writing the success response; `exchange` is the worker outcome of the
code-for-token exchange; `now` is the Unix time read when normalizing the
response. -/
structure SignInEnv where
  csrfToken : String
  pkceChallenge : String
  pkceVerifier : String
  bind : Nat → Except String Nat
  openBrowser : Except String Unit
  connectionAccepted : Bool
  readLine : Except String String
  writeAll : Except String Unit
  exchange : WorkerOutcome ProviderTokenResponse
  now : Nat

/-- Effect outcomes for one `sign_out` call: the worker outcome of the
revocation request, carrying the HTTP status code when it completes. -/
structure SignOutEnv where
  revoke : WorkerOutcome Nat

/-- Effect outcomes for one `refresh_token` call. -/
structure RefreshEnv where
  exchange : WorkerOutcome ProviderTokenResponse
  now : Nat

/-- Mirrors constant `GOOGLE_AUTH_URL` of `desktop.rs`. -/
def GOOGLE_AUTH_URL : String := "https://accounts.google.com/o/oauth2/auth"

/-- Mirrors constant `GOOGLE_TOKEN_URL` of `desktop.rs`. -/
def GOOGLE_TOKEN_URL : String := "https://oauth2.googleapis.com/token"

/-- Mirrors constant `GOOGLE_REVOCATION_URL` of `desktop.rs`. -/
def GOOGLE_REVOCATION_URL : String := "https://oauth2.googleapis.com/revoke"

/-- Mirrors constant `LOCALHOST_ADDR` of `desktop.rs`. -/
def LOCALHOST_ADDR : String := "127.0.0.1"

/-- Mirrors constant `DEFAULT_REDIRECT_HOST` of `desktop.rs`. -/
def DEFAULT_REDIRECT_HOST : String := "localhost"

/-- Mirrors constant `SUCCESS_HTML_RESPONSE` of `desktop.rs`. -/
def SUCCESS_HTML_RESPONSE : String := "Go back to your app :)"

/-- Splits a character list at every separator recognized by `p`,
keeping empty pieces, as the splitting iterators underlying
`str::split_whitespace` and `form_urlencoded` do before empty pieces are
discarded. -/
def splitOnP (p : Char → Bool) : List Char → List (List Char)
  | [] => [[]]
  | c :: rest =>
    match splitOnP p rest with
    | [] => [[]]
    | piece :: pieces =>
      if p c then [] :: piece :: pieces else (c :: piece) :: pieces

/-- Value of one hexadecimal digit, if the character is one. -/
def hexDigitValue (c : Char) : Option Nat :=
  if '0' ≤ c ∧ c ≤ '9' then some (c.toNat - '0'.toNat)
  else if 'a' ≤ c ∧ c ≤ 'f' then some (c.toNat - 'a'.toNat + 10)
  else if 'A' ≤ c ∧ c ≤ 'F' then some (c.toNat - 'A'.toNat + 10)
  else none

/-- Percent-and-plus decoding of one form-urlencoded component, as the
`form_urlencoded` parser used by `Url::query_pairs` performs it on the
ASCII inputs of this flow: `+` becomes a space, `%XY` with two hex digits
becomes the byte value, and an invalid percent sequence passes through. -/
def percentDecodeChars : List Char → List Char
  | [] => []
  | c :: rest =>
    if c = '+' then ' ' :: percentDecodeChars rest
    else if c = '%' then
      match rest with
      | a :: b :: rest2 =>
        match hexDigitValue a, hexDigitValue b with
        | some ha, some hb => Char.ofNat (16 * ha + hb) :: percentDecodeChars rest2
        | _, _ => '%' :: percentDecodeChars (a :: b :: rest2)
      | [a] => '%' :: percentDecodeChars [a]
      | [] => ['%']
    else c :: percentDecodeChars rest

/-- Mirrors `Url::query_pairs` (the `form_urlencoded` parser): split the
raw query on `&`, discard empty pieces, split each piece at the first
`=` (a piece without `=` gets an empty value), and percent-decode key
and value. -/
def parseQueryPairs (q : String) : List (String × String) :=
  ((splitOnP (fun c => c == '&') q.data).filter (fun piece => !piece.isEmpty)).map
    (fun piece =>
      let key := piece.takeWhile (fun c => c != '=')
      let rest := piece.dropWhile (fun c => c != '=')
      (String.mk (percentDecodeChars key), String.mk (percentDecodeChars (rest.drop 1))))

/-- Mirrors `str::split_whitespace`: split on whitespace characters and
discard empty pieces. -/
def splitWhitespaceModel (s : String) : List String :=
  ((splitOnP Char.isWhitespace s.data).filter (fun piece => !piece.isEmpty)).map String.mk

/-- The parts of a parsed absolute URL that `desktop.rs` consumes:
scheme, host (lowercased), port (absent when absent in the text, empty,
or equal to the scheme default), path, and the raw query string. -/
structure UrlParts where
  scheme : String
  host : Option String
  port : Option Nat
  path : String
  query : Option String
deriving DecidableEq, Repr

/-- Digit-string value accumulator for port parsing. -/
def charsToNatAux (acc : Nat) : List Char → Option Nat
  | [] => some acc
  | c :: rest =>
    if c.isDigit then charsToNatAux (10 * acc + (c.toNat - '0'.toNat)) rest else none

/-- Parses the authority component `[userinfo@]host[:port]` of a URL:
the host starts after the last `@`, the port after the last `:`; an
empty host is a parse error; an empty port text counts as no port; a
non-numeric or out-of-range port is a parse error; the host is
lowercased as the url crate does for ASCII hosts. -/
def parseAuthority (authority : List Char) : Except String (String × Option Nat) :=
  let hostport :=
    if authority.contains '@' then
      (authority.reverse.takeWhile (fun c => c != '@')).reverse
    else authority
  let hostAndPort : List Char × List Char :=
    match hostport.reverse.dropWhile (fun c => c != ':') with
    | [] => (hostport, [])
    | _ :: hostRev =>
      (hostRev.reverse, (hostport.reverse.takeWhile (fun c => c != ':')).reverse)
  let hostCs := hostAndPort.1
  let portCs := hostAndPort.2
  let rawPort : Except String (Option Nat) :=
    if portCs.isEmpty then Except.ok none
    else
      match charsToNatAux 0 portCs with
      | some n => if n ≤ 65535 then Except.ok (some n) else Except.error "invalid port number"
      | none => Except.error "invalid port number"
  match rawPort with
  | Except.error e => Except.error e
  | Except.ok rawPort =>
    if hostCs.isEmpty then Except.error "empty host"
    else Except.ok (String.mk (hostCs.map Char.toLower), rawPort)

/-- Drops a port equal to the scheme default (80 for http, 443 for
https), as `Url::port` reports no port for default ports. -/
def stripDefaultPort (scheme : String) (rawPort : Option Nat) : Option Nat :=
  match rawPort with
  | some n =>
    if (scheme == "http" && n == 80) || (scheme == "https" && n == 443) then none
    else some n
  | none => none

/-- Splits the part of a URL after the authority into the path and the
raw query, dropping any fragment. -/
def splitPathQuery (after : List Char) : String × Option String :=
  let beforeFrag := after.takeWhile (fun c => c != '#')
  let path := beforeFrag.takeWhile (fun c => c != '?')
  let query :=
    match beforeFrag.dropWhile (fun c => c != '?') with
    | '?' :: qd => some (String.mk qd)
    | _ => none
  (String.mk path, query)

/-- Mirrors `Url::parse` for the absolute http-style URLs this flow
handles: `scheme://[userinfo@]host[:port][/path][?query][#fragment]`.
The host is lowercased as the url crate does for ASCII hosts; a port
equal to the scheme default (80 for http, 443 for https) is reported as
absent, as `Url::port` does; an out-of-range or non-numeric port, an
empty host, or a missing `scheme://` prefix is a parse error. -/
def parseUrl (s : String) : Except String UrlParts :=
  let cs := s.data
  let scheme := cs.takeWhile (fun c => c != ':')
  match cs.dropWhile (fun c => c != ':') with
  | ':' :: '/' :: '/' :: rest =>
    if scheme.isEmpty then Except.error "relative URL without a base"
    else
      let authority := rest.takeWhile (fun c => !(c == '/' || c == '?' || c == '#'))
      let after := rest.dropWhile (fun c => !(c == '/' || c == '?' || c == '#'))
      match parseAuthority authority with
      | Except.error e => Except.error e
      | Except.ok (host, rawPort) =>
        let pathQuery := splitPathQuery after
        Except.ok
          { scheme := String.mk scheme, host := some host
            port := stripDefaultPort (String.mk scheme) rawPort
            path := pathQuery.1, query := pathQuery.2 }
  | _ => Except.error "relative URL without a base"

/-- Query pairs of a parsed URL, as `url.query_pairs()` yields them. -/
def urlQueryPairs (u : UrlParts) : List (String × String) :=
  parseQueryPairs (u.query.getD "")

/-- The parse result of the reconstructed redirect URL
`http://localhost/?q`: host localhost, no port, root path, query `q`. -/
def localhostQueryParts (q : String) : UrlParts :=
  { scheme := "http", host := some "localhost", port := none, path := "/", query := some q }

/-- One character of form-urlencoded serialization (ASCII range), as the
oauth2 crate encodes query parameters of the authorization URL. -/
def formUrlencodeChar (c : Char) : List Char :=
  if c.isAlphanum || c == '*' || c == '-' || c == '.' || c == '_' then [c]
  else if c == ' ' then ['+']
  else
    let n := c.toNat % 256
    let hexChar := fun d => if d < 10 then Char.ofNat ('0'.toNat + d) else Char.ofNat ('A'.toNat + d - 10)
    ['%', hexChar (n / 16), hexChar (n % 16)]

/-- Form-urlencoded serialization of one query component. -/
def formUrlencode (s : String) : String :=
  String.mk (s.data.foldr (fun c acc => formUrlencodeChar c ++ acc) [])

/-- Space-joined scope list, as the oauth2 crate joins scopes before
encoding them into the `scope` query parameter. -/
def joinWithSpace : List String → String
  | [] => ""
  | [s] => s
  | s :: rest => s ++ " " ++ joinWithSpace rest

/-- Mirrors lines 140 to 169 of `desktop.rs` together with the oauth2
crate `authorize_url` builder: the authorization endpoint URL carrying
`response_type=code`, the client id, the CSRF `state` value, the PKCE
challenge with method `S256`, the finalized redirect URI, and the
space-joined scopes. -/
def buildAuthorizeUrl (clientId redirectUrl : String) (scopes : List String)
    (state challenge : String) : String :=
  GOOGLE_AUTH_URL ++ "?response_type=code&client_id=" ++ formUrlencode clientId
    ++ "&state=" ++ formUrlencode state
    ++ "&code_challenge=" ++ formUrlencode challenge
    ++ "&code_challenge_method=S256&redirect_uri=" ++ formUrlencode redirectUrl
    ++ (if scopes.isEmpty then "" else "&scope=" ++ formUrlencode (joinWithSpace scopes))

/-- Mirrors lines 66 to 78 of `desktop.rs`: scopes must be provided and
non-empty. -/
def validateScopes (scopes : Option (List String)) : Except Error (List String) :=
  match scopes with
  | none =>
    Except.error (Error.ConfigurationError
      "No scopes provided. At least one scope is required for authentication")
  | some l =>
    if l.isEmpty then
      Except.error (Error.ConfigurationError
        "Empty scopes array. At least one scope is required for authentication")
    else Except.ok l

/-- Mirrors lines 81 to 102 of `desktop.rs`: parse the optional redirect
URI, require a host, require the host to be `localhost` or `127.0.0.1`,
and return host and optional explicit port; without a redirect URI the
default host and no port are used. -/
def parseRedirectHostPort (redirectUri : Option String) : Except Error (String × Option Nat) :=
  match redirectUri with
  | some uri =>
    match parseUrl uri with
    | Except.error e => Except.error (Error.ConfigurationError ("Invalid redirect URI: " ++ e))
    | Except.ok parsed =>
      match parsed.host with
      | none => Except.error (Error.ConfigurationError "Redirect URI must have a host")
      | some host =>
        if host != DEFAULT_REDIRECT_HOST && host != LOCALHOST_ADDR then
          Except.error (Error.ConfigurationError
            "Redirect URI must use localhost or 127.0.0.1 for desktop authentication")
        else Except.ok (host, parsed.port)
  | none => Except.ok (DEFAULT_REDIRECT_HOST, none)

/-- Mirrors lines 104 to 110 and 327 to 332 of `desktop.rs`: the client
secret is mandatory for the desktop flow. -/
def requireClientSecret (clientSecret : Option String) : Except Error String :=
  match clientSecret with
  | none =>
    Except.error (Error.ConfigurationError "Client secret is required for desktop authentication")
  | some s => Except.ok s

/-- Mirrors the `AuthUrl::new`, `TokenUrl::new`, `RedirectUrl::new` and
`RevocationUrl::new` constructions of `desktop.rs`, each of which fails
with a `ConfigurationError` carrying the given message when the URL does
not parse. -/
def checkEndpointUrl (endpoint : String) (msg : String) : Except Error UrlParts :=
  match parseUrl endpoint with
  | Except.error _ => Except.error (Error.ConfigurationError msg)
  | Except.ok parts => Except.ok parts

/-- Mirrors lines 119 to 135 of `desktop.rs`: bind the loopback listener
to the explicit port when one was supplied, otherwise to port 0 so the
OS assigns one, and return the port reported by `local_addr`. -/
def bindListener (bind : Nat → Except String Nat) (port : Option Nat) : Except Error Nat :=
  match port with
  | some p =>
    match bind p with
    | Except.error e =>
      Except.error (Error.NetworkError ("Failed to bind to port " ++ toString p ++ ": " ++ e))
    | Except.ok bound => Except.ok bound
  | none =>
    match bind 0 with
    | Except.error e =>
      Except.error (Error.NetworkError ("Failed to bind to any available port: " ++ e))
    | Except.ok bound => Except.ok bound

/-- The exact response bytes written on success, from lines 222 to 226 of
`desktop.rs`: a 200 OK status line, a `content-length` header holding the
byte length of the body, and the body. -/
def mkSuccessResponse (successMessage : String) : String :=
  "HTTP/1.1 200 OK\r\ncontent-length: " ++ toString successMessage.utf8ByteSize
    ++ "\r\n\r\n" ++ successMessage

/-- Mirrors lines 181 to 230 of `desktop.rs`: accept the single redirect
connection, read one request line, take its second whitespace token as
the request path, parse `http://localhost` plus that path, extract the
first `code` and the first `state` query pair (each absence is an
authentication failure), write the success response, and return the
code and state values. -/
def processRedirect (connectionAccepted : Bool) (readLine : Except String String)
    (writeAll : Except String Unit) (successMessage : String) :
    Except Error (String × String) × List Event :=
  if connectionAccepted then
    match readLine with
    | Except.error e => (Except.error (Error.IoError e), [Event.accept])
    | Except.ok requestLine =>
      match (splitWhitespaceModel requestLine).get? 1 with
      | none => (Except.error (Error.NetworkError "Invalid HTTP request format"), [Event.accept])
      | some requestPath =>
        match parseUrl ("http://" ++ DEFAULT_REDIRECT_HOST ++ requestPath) with
        | Except.error e =>
          (Except.error (Error.NetworkError ("Failed to parse redirect URL: " ++ e)),
            [Event.accept])
        | Except.ok url =>
          match (urlQueryPairs url).find? (fun kv => kv.1 == "code") with
          | none =>
            (Except.error (Error.AuthenticationFailed "Authorization code not found in response"),
              [Event.accept])
          | some codePair =>
            match (urlQueryPairs url).find? (fun kv => kv.1 == "state") with
            | none =>
              (Except.error (Error.AuthenticationFailed "State parameter not found in response"),
                [Event.accept])
            | some statePair =>
              match writeAll with
              | Except.error e =>
                (Except.error (Error.IoError e),
                  [Event.accept, Event.writeResponse (mkSuccessResponse successMessage)])
              | Except.ok _ =>
                (Except.ok (codePair.2, statePair.2),
                  [Event.accept, Event.writeResponse (mkSuccessResponse successMessage)])
  else
    (Except.error (Error.NetworkError "Listener terminated without accepting a connection"), [])

/-- Interprets an integer through 64-bit two's-complement: the value
modulo 2^64, shifted into the signed range.  This is the semantics Rust
gives to the `u64 as i64` cast, and to overflowing `i64` addition as
compiled in release mode. -/
def toI64 (z : Int) : Int :=
  let m := z % (2 : Int) ^ 64
  if m < 2 ^ 63 then m else m - 2 ^ 64

/-- Mirrors lines 260 to 280 and 373 to 393 of `desktop.rs`: normalize a
completed provider response.  The absolute expiry is
`now.as_secs() as i64 + d.as_secs() as i64` computed in 64-bit signed
arithmetic: both `u64` to `i64` casts wrap, and the addition wraps as in
release builds, so a provider-supplied `expires_in` of 2^63 seconds or
more yields a wrapped timestamp rather than the true sum. -/
def normalizeTokenResponse (now : Nat) (resp : ProviderTokenResponse) : TokenResponse :=
  { idToken := resp.idToken
    accessToken := resp.accessToken
    scopes := resp.scopes.getD []
    refreshToken := resp.refreshToken
    expiresAt :=
      resp.expiresIn.map (fun (d : Nat) => toI64 (toI64 (now : Int) + toI64 (d : Int))) }

/-- Mirrors lines 232 to 258 of `desktop.rs`: the code-for-token exchange
worker.  The reqwest client is always built with redirect policy none;
the outcome of the worker (join panic, client build failure, transport
failure, or a completed response) is supplied by the environment. -/
def exchangeCode (outcome : WorkerOutcome ProviderTokenResponse) (now : Nat) :
    Except Error TokenResponse × List Event :=
  match outcome with
  | WorkerOutcome.panicked =>
    (Except.error (Error.AuthenticationFailed "Token exchange thread panicked"), [])
  | WorkerOutcome.buildFailed e =>
    (Except.error (Error.NetworkError ("Failed to build HTTP client: " ++ e)), [])
  | WorkerOutcome.requestFailed e =>
    (Except.error (Error.AuthenticationFailed ("Failed to exchange code for token: " ++ e)),
      [Event.httpRequest GOOGLE_TOKEN_URL RedirectPolicy.noFollow])
  | WorkerOutcome.ok resp =>
    (Except.ok (normalizeTokenResponse now resp),
      [Event.httpRequest GOOGLE_TOKEN_URL RedirectPolicy.noFollow])

/-- Mirrors lines 171 to 280 of `desktop.rs`, the part of `sign_in` that
runs once the authorization URL is built: open the browser on it, process
the single redirect, and exchange the code for tokens. -/
def signInWithListener (env : SignInEnv) (authorizeUrl : String) (successMessage : String) :
    Except Error TokenResponse × List Event :=
  match env.openBrowser with
  | Except.error e =>
    (Except.error (Error.NetworkError ("Failed to open browser: " ++ e)),
      [Event.openBrowser authorizeUrl])
  | Except.ok _ =>
    match processRedirect env.connectionAccepted env.readLine env.writeAll successMessage with
    | (Except.error e, evs) => (Except.error e, Event.openBrowser authorizeUrl :: evs)
    | (Except.ok _codeState, evs) =>
      let exchanged := exchangeCode env.exchange env.now
      (exchanged.1, Event.openBrowser authorizeUrl :: (evs ++ exchanged.2))

/-- Mirrors lines 111 to 280 of `desktop.rs`, the part of `sign_in` that
runs on validated input: construct the endpoint URLs, bind the listener,
finalize the redirect URL with the bound port, build the authorization
URL with the fresh CSRF token and PKCE challenge, and run the listener
stage. -/
def signInConfigured (env : SignInEnv) (clientId : String) (scopes : List String)
    (redirectHost : String) (port : Option Nat) (successHtmlResponse : Option String) :
    Except Error TokenResponse × List Event :=
  match checkEndpointUrl GOOGLE_AUTH_URL "Invalid authorization endpoint URL" with
  | Except.error e => (Except.error e, [])
  | Except.ok _ =>
    match checkEndpointUrl GOOGLE_TOKEN_URL "Invalid token endpoint URL" with
    | Except.error e => (Except.error e, [])
    | Except.ok _ =>
      match bindListener env.bind port with
      | Except.error e => (Except.error e, [Event.bind (port.getD 0)])
      | Except.ok actualPort =>
        let redirectUrl := "http://" ++ redirectHost ++ ":" ++ toString actualPort
        match checkEndpointUrl redirectUrl "Invalid redirect URL" with
        | Except.error e => (Except.error e, [Event.bind (port.getD 0)])
        | Except.ok _ =>
          match checkEndpointUrl GOOGLE_REVOCATION_URL "Invalid revocation endpoint URL" with
          | Except.error e => (Except.error e, [Event.bind (port.getD 0)])
          | Except.ok _ =>
            let res := signInWithListener env
              (buildAuthorizeUrl clientId redirectUrl scopes env.csrfToken env.pkceChallenge)
              (successHtmlResponse.getD SUCCESS_HTML_RESPONSE)
            (res.1, Event.bind (port.getD 0) :: res.2)

/-- Mirrors `GoogleAuth::sign_in` (lines 66 to 281 of `desktop.rs`),
composed from the stage functions above in source order: validate scopes,
parse and validate the redirect URI, require the client secret, then run
the configured flow. -/
def signIn (env : SignInEnv) (payload : SignInRequest) :
    Except Error TokenResponse × List Event :=
  match validateScopes payload.scopes with
  | Except.error e => (Except.error e, [])
  | Except.ok scopes =>
    match parseRedirectHostPort payload.redirectUri with
    | Except.error e => (Except.error e, [])
    | Except.ok (redirectHost, port) =>
      match requireClientSecret payload.clientSecret with
      | Except.error e => (Except.error e, [])
      | Except.ok _secret =>
        signInConfigured env payload.clientId scopes redirectHost port
          payload.successHtmlResponse

/-- Mirrors `GoogleAuth::sign_out` (lines 283 to 321 of `desktop.rs`):
without an access token, succeed immediately; otherwise run the
revocation worker and return success whatever HTTP status the completed
revocation request has, while worker panics, client build failures and
transport failures propagate as errors. -/
def signOut (env : SignOutEnv) (payload : SignOutRequest) :
    Except Error SignOutResponse × List Event :=
  match payload.accessToken with
  | none => (Except.ok { success := true }, [])
  | some _token =>
    match env.revoke with
    | WorkerOutcome.panicked =>
      (Except.error (Error.AuthenticationFailed "Token exchange thread panicked"), [])
    | WorkerOutcome.buildFailed e =>
      (Except.error (Error.NetworkError ("Failed to build HTTP client: " ++ e)), [])
    | WorkerOutcome.requestFailed e =>
      (Except.error (Error.NetworkError ("Failed to revoke token: " ++ e)),
        [Event.httpRequest GOOGLE_REVOCATION_URL RedirectPolicy.noFollow])
    | WorkerOutcome.ok status =>
      if 200 ≤ status && status ≤ 299 then
        (Except.ok { success := true },
          [Event.httpRequest GOOGLE_REVOCATION_URL RedirectPolicy.noFollow])
      else
        (Except.ok { success := true },
          [Event.httpRequest GOOGLE_REVOCATION_URL RedirectPolicy.noFollow])

/-- Mirrors `GoogleAuth::refresh_token` (lines 323 to 394 of
`desktop.rs`): require the client secret, construct the token endpoint
URL, run the refresh worker, and normalize the completed response. -/
def refreshToken (env : RefreshEnv) (payload : RefreshTokenRequest) :
    Except Error TokenResponse × List Event :=
  match requireClientSecret payload.clientSecret with
  | Except.error e => (Except.error e, [])
  | Except.ok _secret =>
    match checkEndpointUrl GOOGLE_TOKEN_URL "Invalid token endpoint URL" with
    | Except.error e => (Except.error e, [])
    | Except.ok _ =>
      match env.exchange with
      | WorkerOutcome.panicked =>
        (Except.error (Error.AuthenticationFailed "Token refresh thread panicked"), [])
      | WorkerOutcome.buildFailed e =>
        (Except.error (Error.NetworkError ("Failed to build HTTP client: " ++ e)), [])
      | WorkerOutcome.requestFailed e =>
        (Except.error (Error.AuthenticationFailed ("Failed to refresh token: " ++ e)),
          [Event.httpRequest GOOGLE_TOKEN_URL RedirectPolicy.noFollow])
      | WorkerOutcome.ok resp =>
        (Except.ok (normalizeTokenResponse env.now resp),
          [Event.httpRequest GOOGLE_TOKEN_URL RedirectPolicy.noFollow])

/-- A query-string value free of URL metacharacters and escapes: for such
values form-urlencoded extraction returns the literal text. -/
abbrev PlainToken (t : String) : Prop :=
  t.data ≠ [] ∧ ∀ c ∈ t.data, c.isAlphanum = true

/-! ### Helper lemmas about the parsing primitives -/

/-- Two strings with the same character data are equal. -/
theorem stringDataEq {a b : String} (h : a.data = b.data) : a = b :=
  congrArg String.mk h

/-- Rebuilding a string from its data yields the same string. -/
theorem stringMkData (s : String) : String.mk s.data = s := rfl

/-- An alphanumeric character differs from any non-alphanumeric one. -/
theorem alphanum_ne {x c : Char} (hx : x.isAlphanum = true) (hc : c.isAlphanum = false) :
    x ≠ c := by
  intro h
  subst h
  rw [hc] at hx
  exact Bool.noConfusion hx

/-- A `takeWhile` over a prefix whose characters all satisfy the predicate
passes the prefix through. -/
theorem takeWhile_append_of_all {p : Char → Bool} {l₁ l₂ : List Char}
    (h : ∀ x ∈ l₁, p x = true) :
    (l₁ ++ l₂).takeWhile p = l₁ ++ l₂.takeWhile p := by
  induction l₁ with
  | nil => simp
  | cons a l ih =>
    have ha : p a = true := h a (List.mem_cons_self a l)
    simp [List.takeWhile_cons, ha, ih (fun x hx => h x (List.mem_cons_of_mem a hx))]

/-- A `dropWhile` over a prefix whose characters all satisfy the predicate
discards the prefix. -/
theorem dropWhile_append_of_all {p : Char → Bool} {l₁ l₂ : List Char}
    (h : ∀ x ∈ l₁, p x = true) :
    (l₁ ++ l₂).dropWhile p = l₂.dropWhile p := by
  induction l₁ with
  | nil => simp
  | cons a l ih =>
    have ha : p a = true := h a (List.mem_cons_self a l)
    simp [List.dropWhile_cons, ha, ih (fun x hx => h x (List.mem_cons_of_mem a hx))]

/-- `takeWhile` keeps a list all of whose characters satisfy the
predicate. -/
theorem takeWhile_of_all {p : Char → Bool} {l : List Char} (h : ∀ x ∈ l, p x = true) :
    l.takeWhile p = l := by
  induction l with
  | nil => rfl
  | cons a l ih =>
    have ha : p a = true := h a (List.mem_cons_self a l)
    simp [List.takeWhile_cons, ha, ih (fun x hx => h x (List.mem_cons_of_mem a hx))]

/-- `dropWhile` empties a list all of whose characters satisfy the
predicate. -/
theorem dropWhile_of_all {p : Char → Bool} {l : List Char} (h : ∀ x ∈ l, p x = true) :
    l.dropWhile p = [] := by
  induction l with
  | nil => rfl
  | cons a l ih =>
    have ha : p a = true := h a (List.mem_cons_self a l)
    simp [List.dropWhile_cons, ha, ih (fun x hx => h x (List.mem_cons_of_mem a hx))]

/-- `splitOnP` always yields at least one piece. -/
theorem splitOnP_ne_nil (p : Char → Bool) (l : List Char) : splitOnP p l ≠ [] := by
  induction l with
  | nil => simp [splitOnP]
  | cons c rest ih =>
    simp only [splitOnP]
    cases hrec : splitOnP p rest with
    | nil => exact absurd hrec ih
    | cons piece pieces =>
      by_cases hc : p c <;> simp [hc]

/-- `splitOnP` on a list without separators yields that single piece. -/
theorem splitOnP_no_sep {p : Char → Bool} {l : List Char} (h : ∀ c ∈ l, p c = false) :
    splitOnP p l = [l] := by
  induction l with
  | nil => rfl
  | cons c rest ih =>
    have hrec := ih (fun x hx => h x (List.mem_cons_of_mem c hx))
    simp [splitOnP, hrec, h c (List.mem_cons_self c rest)]

/-- `splitOnP` splits at a separator that follows a separator-free
prefix. -/
theorem splitOnP_append_sep {p : Char → Bool} {l₁ l₂ : List Char} {c : Char}
    (hc : p c = true) (h : ∀ x ∈ l₁, p x = false) :
    splitOnP p (l₁ ++ c :: l₂) = l₁ :: splitOnP p l₂ := by
  induction l₁ with
  | nil =>
    simp only [List.nil_append, splitOnP]
    cases hrec : splitOnP p l₂ with
    | nil => exact absurd hrec (splitOnP_ne_nil p l₂)
    | cons piece pieces => simp [hc]
  | cons a l ih =>
    have ha : p a = false := h a (List.mem_cons_self a l)
    have hrec := ih (fun x hx => h x (List.mem_cons_of_mem a hx))
    show splitOnP p (a :: (l ++ c :: l₂)) = (a :: l) :: splitOnP p l₂
    simp only [splitOnP]
    rw [hrec]
    simp [ha]

/-- Percent-and-plus decoding is the identity on text free of `%` and
`+`. -/
theorem percentDecodeChars_id {l : List Char} (h : ∀ c ∈ l, c ≠ '%' ∧ c ≠ '+') :
    percentDecodeChars l = l := by
  induction l with
  | nil => rfl
  | cons c rest ih =>
    have hc := h c (List.mem_cons_self c rest)
    have hrec := ih (fun x hx => h x (List.mem_cons_of_mem c hx))
    rw [percentDecodeChars.eq_def]
    simp [hc.1, hc.2, hrec]

/-- Characters of a plain token are never equal to a non-alphanumeric
character. -/
theorem plain_ne {t : String} (ht : PlainToken t) {c : Char} (hc : c.isAlphanum = false) :
    ∀ x ∈ t.data, x ≠ c :=
  fun x hx => alphanum_ne (ht.2 x hx) hc

/-- Boolean form of `plain_ne` for `!=` tests. -/
theorem plain_bne {t : String} (ht : PlainToken t) {c : Char} (hc : c.isAlphanum = false) :
    ∀ x ∈ t.data, (x != c) = true :=
  fun x hx => bne_iff_ne.mpr (plain_ne ht hc x hx)

/-- Boolean form of `plain_ne` for `==` tests. -/
theorem plain_beq_false {t : String} (ht : PlainToken t) {c : Char} (hc : c.isAlphanum = false) :
    ∀ x ∈ t.data, (x == c) = false :=
  fun x hx => beq_eq_false_iff_ne.mpr (plain_ne ht hc x hx)

/-- Decoding a `name=value` piece with an escape-free name and a plain
value recovers name and value literally. -/
theorem queryPiece_decode (name t : String)
    (hn1 : ∀ x ∈ name.data, (x != '=') = true)
    (hn2 : ∀ x ∈ name.data, x ≠ '%' ∧ x ≠ '+')
    (ht : PlainToken t) :
    (String.mk (percentDecodeChars ((name.data ++ '=' :: t.data).takeWhile (fun c => c != '='))),
      String.mk (percentDecodeChars
        (((name.data ++ '=' :: t.data).dropWhile (fun c => c != '=')).drop 1)))
    = (name, t) := by
  rw [takeWhile_append_of_all hn1, dropWhile_append_of_all hn1]
  have h0 : (('=' : Char) != '=') = false := by decide
  rw [List.takeWhile_cons, List.dropWhile_cons]
  simp only [h0, if_false, Bool.false_eq_true, List.append_nil, List.drop_succ_cons,
    List.drop_zero]
  rw [percentDecodeChars_id hn2, percentDecodeChars_id (fun x hx =>
    ⟨plain_ne ht (by decide) x hx, plain_ne ht (by decide) x hx⟩)]

/-- A literal query string with plain code and state values yields
exactly those two pairs. -/
theorem parseQueryPairs_code_state (c s : String) (hc : PlainToken c) (hs : PlainToken s) :
    parseQueryPairs ("code=" ++ c ++ "&state=" ++ s) = [("code", c), ("state", s)] := by
  have hdata : ("code=" ++ c ++ "&state=" ++ s).data
      = ("code".data ++ '=' :: c.data) ++ '&' :: ("state".data ++ '=' :: s.data) := by
    simp only [String.data_append, List.append_assoc, List.cons_append]
    rfl
  have hA : ∀ x ∈ ("code".data ++ '=' :: c.data), (x == '&') = false := by
    intro x hx
    rcases List.mem_append.mp hx with h1 | h2
    · have hall : ∀ y ∈ "code".data, (y == '&') = false := by decide
      exact hall x h1
    · rcases List.mem_cons.mp h2 with rfl | h3
      · decide
      · exact plain_beq_false hc (by decide) x h3
  have hB : ∀ x ∈ ("state".data ++ '=' :: s.data), (x == '&') = false := by
    intro x hx
    rcases List.mem_append.mp hx with h1 | h2
    · have hall : ∀ y ∈ "state".data, (y == '&') = false := by decide
      exact hall x h1
    · rcases List.mem_cons.mp h2 with rfl | h3
      · decide
      · exact plain_beq_false hs (by decide) x h3
  simp only [parseQueryPairs]
  rw [hdata]
  rw [splitOnP_append_sep (by decide) hA, splitOnP_no_sep hB]
  have hne1 : (!(("code".data ++ '=' :: c.data)).isEmpty) = true := rfl
  have hne2 : (!(("state".data ++ '=' :: s.data)).isEmpty) = true := rfl
  simp only [List.filter_cons, hne1, hne2, if_true, List.filter_nil, List.map_cons, List.map_nil]
  rw [queryPiece_decode "code" c (by decide) (by decide) hc,
      queryPiece_decode "state" s (by decide) (by decide) hs]

/-- A literal query string with only a plain code value yields exactly
that pair. -/
theorem parseQueryPairs_code_only (c : String) (hc : PlainToken c) :
    parseQueryPairs ("code=" ++ c) = [("code", c)] := by
  have hdata : ("code=" ++ c).data = "code".data ++ '=' :: c.data := by
    simp only [String.data_append]
    rfl
  have hB : ∀ x ∈ ("code".data ++ '=' :: c.data), (x == '&') = false := by
    intro x hx
    rcases List.mem_append.mp hx with h1 | h2
    · have hall : ∀ y ∈ "code".data, (y == '&') = false := by decide
      exact hall x h1
    · rcases List.mem_cons.mp h2 with rfl | h3
      · decide
      · exact plain_beq_false hc (by decide) x h3
  simp only [parseQueryPairs]
  rw [hdata, splitOnP_no_sep hB]
  have hne1 : (!(("code".data ++ '=' :: c.data)).isEmpty) = true := rfl
  simp only [List.filter_cons, hne1, if_true, List.filter_nil, List.map_cons, List.map_nil]
  rw [queryPiece_decode "code" c (by decide) (by decide) hc]

/-- Splitting a well-formed request line with a whitespace-free path
yields method, path and version tokens. -/
theorem splitWhitespace_requestLine (path : String) (hne : path.data ≠ [])
    (hpath : ∀ x ∈ path.data, x.isWhitespace = false) :
    splitWhitespaceModel ("GET " ++ path ++ " HTTP/1.1\r\n") = ["GET", path, "HTTP/1.1"] := by
  have hdata : ("GET " ++ path ++ " HTTP/1.1\r\n").data
      = "GET".data ++ ' ' :: (path.data ++ ' ' :: "HTTP/1.1\r\n".data) := by
    simp only [String.data_append, List.append_assoc, List.cons_append]
    rfl
  have hG : ∀ x ∈ "GET".data, x.isWhitespace = false := by decide
  have hrest : splitOnP Char.isWhitespace "HTTP/1.1\r\n".data = ["HTTP/1.1".data, [], []] := by
    decide
  simp only [splitWhitespaceModel]
  rw [hdata, splitOnP_append_sep (by decide) hG, splitOnP_append_sep (by decide) hpath, hrest]
  have hne2 : (!path.data.isEmpty) = true := by
    cases hp : path.data with
    | nil => exact absurd hp hne
    | cons a l => rfl
  simp only [List.filter_cons, hne2, if_true, List.filter_nil, List.map_cons, List.map_nil]
  simp [stringMkData]

/-- Parsing the reconstructed redirect URL with a fragment-free query
yields host localhost and that query. -/
theorem parseUrl_localhost_query (q : String) (hq : ∀ x ∈ q.data, (x != '#') = true) :
    parseUrl ("http://localhost/?" ++ q)
      = Except.ok { scheme := "http", host := some "localhost", port := none,
                    path := "/", query := some q } := by
  have hdata : ("http://localhost/?" ++ q).data
      = "http".data ++ ':' :: ('/' :: '/' :: ("localhost".data ++ '/' :: '?' :: q.data)) := by
    simp only [String.data_append]
    rfl
  have hsch : ∀ x ∈ "http".data, (x != ':') = true := by decide
  have hauth : ∀ x ∈ "localhost".data, (!(x == '/' || x == '?' || x == '#')) = true := by decide
  have t1 : List.takeWhile (fun c => c != ':')
      (':' :: ('/' :: '/' :: ("localhost".data ++ '/' :: '?' :: q.data))) = [] := by
    rw [List.takeWhile_cons]
    simp
  have t2 : List.dropWhile (fun c => c != ':')
      (':' :: ('/' :: '/' :: ("localhost".data ++ '/' :: '?' :: q.data)))
      = ':' :: ('/' :: '/' :: ("localhost".data ++ '/' :: '?' :: q.data)) := by
    rw [List.dropWhile_cons]
    simp
  have t3 : List.takeWhile (fun c => !(c == '/' || c == '?' || c == '#'))
      ('/' :: '?' :: q.data) = [] := by
    rw [List.takeWhile_cons]
    simp
  have t4 : List.dropWhile (fun c => !(c == '/' || c == '?' || c == '#'))
      ('/' :: '?' :: q.data) = '/' :: '?' :: q.data := by
    rw [List.dropWhile_cons]
    simp
  have hpa : parseAuthority "localhost".data = Except.ok ("localhost", none) := by decide
  have hsp : splitPathQuery ('/' :: '?' :: q.data) = ("/", some q) := by
    simp only [splitPathQuery]
    have b1 : List.takeWhile (fun c => c != '#') ('/' :: '?' :: q.data)
        = '/' :: '?' :: q.data := by
      rw [List.takeWhile_cons]
      simp only [show (('/' : Char) != '#') = true from rfl, if_true]
      rw [List.takeWhile_cons]
      simp only [show (('?' : Char) != '#') = true from rfl, if_true]
      rw [takeWhile_of_all hq]
    rw [b1]
    have b2 : List.takeWhile (fun c => c != '?') ('/' :: '?' :: q.data) = ['/'] := by
      rw [List.takeWhile_cons]
      simp
    have b3 : List.dropWhile (fun c => c != '?') ('/' :: '?' :: q.data) = '?' :: q.data := by
      rw [List.dropWhile_cons]
      simp
    rw [b2, b3]
    rfl
  simp only [parseUrl]
  rw [hdata, takeWhile_append_of_all hsch, dropWhile_append_of_all hsch, t1, t2]
  simp only [List.append_nil]
  rw [takeWhile_append_of_all hauth, dropWhile_append_of_all hauth, t3, t4]
  simp [hpa, hsp, stripDefaultPort]

/-- Once the three validation stages succeed, `signIn` runs the
configured flow. -/
theorem signIn_validated (env : SignInEnv) (p : SignInRequest) (scopes : List String)
    (host : String) (port : Option Nat) (sec : String)
    (hs : validateScopes p.scopes = Except.ok scopes)
    (hr : parseRedirectHostPort p.redirectUri = Except.ok (host, port))
    (hsec : requireClientSecret p.clientSecret = Except.ok sec) :
    signIn env p = signInConfigured env p.clientId scopes host port p.successHtmlResponse := by
  simp only [signIn, hs, hr, hsec]

/-- Once the bind succeeds and the finalized redirect URL parses, the
configured flow binds, then runs the listener stage on the authorization
URL built from the bound port. -/
theorem signInConfigured_bound (env : SignInEnv) (clientId : String) (scopes : List String)
    (host : String) (port : Option Nat) (shr : Option String) (ap : Nat) (u : UrlParts)
    (hb : bindListener env.bind port = Except.ok ap)
    (hu : parseUrl ("http://" ++ host ++ ":" ++ toString ap) = Except.ok u) :
    signInConfigured env clientId scopes host port shr
      = ((signInWithListener env
            (buildAuthorizeUrl clientId ("http://" ++ host ++ ":" ++ toString ap) scopes
              env.csrfToken env.pkceChallenge)
            (shr.getD SUCCESS_HTML_RESPONSE)).1,
         Event.bind (port.getD 0)
           :: (signInWithListener env
                (buildAuthorizeUrl clientId ("http://" ++ host ++ ":" ++ toString ap) scopes
                  env.csrfToken env.pkceChallenge)
                (shr.getD SUCCESS_HTML_RESPONSE)).2) := by
  have h1 : checkEndpointUrl GOOGLE_AUTH_URL "Invalid authorization endpoint URL"
      = Except.ok { scheme := "https", host := some "accounts.google.com", port := none,
                    path := "/o/oauth2/auth", query := none } := by decide
  have h2 : checkEndpointUrl GOOGLE_TOKEN_URL "Invalid token endpoint URL"
      = Except.ok { scheme := "https", host := some "oauth2.googleapis.com", port := none,
                    path := "/token", query := none } := by decide
  have h4 : checkEndpointUrl GOOGLE_REVOCATION_URL "Invalid revocation endpoint URL"
      = Except.ok { scheme := "https", host := some "oauth2.googleapis.com", port := none,
                    path := "/revoke", query := none } := by decide
  have h3 : checkEndpointUrl ("http://" ++ host ++ ":" ++ toString ap) "Invalid redirect URL"
      = Except.ok u := by
    simp only [checkEndpointUrl, hu]
  simp only [signInConfigured, h1, h2, hb, h3, h4]

/-- When the browser opens and the redirect stage fails, its error and
events propagate. -/
theorem signInWithListener_redirect_error (env : SignInEnv) (A M : String) (e : Error)
    (evs : List Event)
    (hob : env.openBrowser = Except.ok ())
    (hpr : processRedirect env.connectionAccepted env.readLine env.writeAll M
      = (Except.error e, evs)) :
    signInWithListener env A M = (Except.error e, Event.openBrowser A :: evs) := by
  simp only [signInWithListener, hob, hpr]

/-- When the browser opens and the redirect stage succeeds, the exchange
outcome is returned. -/
theorem signInWithListener_redirect_ok (env : SignInEnv) (A M : String)
    (cs : String × String) (evs : List Event)
    (hob : env.openBrowser = Except.ok ())
    (hpr : processRedirect env.connectionAccepted env.readLine env.writeAll M
      = (Except.ok cs, evs)) :
    signInWithListener env A M
      = ((exchangeCode env.exchange env.now).1,
         Event.openBrowser A :: (evs ++ (exchangeCode env.exchange env.now).2)) := by
  simp only [signInWithListener, hob, hpr]

/-- A request line without a second whitespace token fails with the
protocol-format error before any query extraction. -/
theorem processRedirect_no_path (line : String) (w : Except String Unit) (m : String)
    (hp : (splitWhitespaceModel line).get? 1 = none) :
    processRedirect true (Except.ok line) w m
      = (Except.error (Error.NetworkError "Invalid HTTP request format"), [Event.accept]) := by
  simp only [processRedirect, hp]
  simp

/-- A redirect whose query lacks the code parameter fails with an
authentication error and writes nothing. -/
theorem processRedirect_missing_code (line path : String) (u : UrlParts)
    (w : Except String Unit) (m : String)
    (hp : (splitWhitespaceModel line).get? 1 = some path)
    (hu : parseUrl ("http://" ++ DEFAULT_REDIRECT_HOST ++ path) = Except.ok u)
    (hf : (urlQueryPairs u).find? (fun kv => kv.1 == "code") = none) :
    processRedirect true (Except.ok line) w m
      = (Except.error (Error.AuthenticationFailed "Authorization code not found in response"),
         [Event.accept]) := by
  simp only [processRedirect, hp, hu, hf]
  simp

/-- A redirect whose query has a code but lacks the state parameter
fails with an authentication error and writes nothing. -/
theorem processRedirect_missing_state (line path : String) (u : UrlParts)
    (cp : String × String) (w : Except String Unit) (m : String)
    (hp : (splitWhitespaceModel line).get? 1 = some path)
    (hu : parseUrl ("http://" ++ DEFAULT_REDIRECT_HOST ++ path) = Except.ok u)
    (hfc : (urlQueryPairs u).find? (fun kv => kv.1 == "code") = some cp)
    (hfs : (urlQueryPairs u).find? (fun kv => kv.1 == "state") = none) :
    processRedirect true (Except.ok line) w m
      = (Except.error (Error.AuthenticationFailed "State parameter not found in response"),
         [Event.accept]) := by
  simp only [processRedirect, hp, hu, hfc, hfs]
  simp

/-- A redirect carrying both code and state succeeds, writing the
success response, and returns the found values. -/
theorem processRedirect_found (line path : String) (u : UrlParts)
    (cp sp : String × String) (w : Except String Unit) (m : String)
    (hp : (splitWhitespaceModel line).get? 1 = some path)
    (hu : parseUrl ("http://" ++ DEFAULT_REDIRECT_HOST ++ path) = Except.ok u)
    (hfc : (urlQueryPairs u).find? (fun kv => kv.1 == "code") = some cp)
    (hfs : (urlQueryPairs u).find? (fun kv => kv.1 == "state") = some sp)
    (hw : w = Except.ok ()) :
    processRedirect true (Except.ok line) w m
      = (Except.ok (cp.2, sp.2),
         [Event.accept, Event.writeResponse (mkSuccessResponse m)]) := by
  simp only [processRedirect, hp, hu, hfc, hfs, hw]
  simp

/-- The redirect stage only ever accepts the connection and writes the
response; it makes no HTTP request. -/
theorem processRedirect_events (conn : Bool) (r : Except String String)
    (w : Except String Unit) (m : String) (ev : Event)
    (h : ev ∈ (processRedirect conn r w m).2) :
    ev = Event.accept ∨ ∃ b, ev = Event.writeResponse b := by
  unfold processRedirect at h
  iterate 8 (all_goals (try split at h))
  all_goals (try simp_all)
  all_goals (rcases h with rfl | rfl <;> simp)

/-- The exchange stage only ever issues the token-endpoint request with
the no-follow redirect policy. -/
theorem exchangeCode_events (o : WorkerOutcome ProviderTokenResponse) (n : Nat) (ev : Event)
    (h : ev ∈ (exchangeCode o n).2) :
    ev = Event.httpRequest GOOGLE_TOKEN_URL RedirectPolicy.noFollow := by
  cases o <;> simp_all [exchangeCode]

/-- When the browser launch fails, the flow stops with a network error
after recording the launch attempt. -/
theorem signInWithListener_browser_error (env : SignInEnv) (A M : String) (e : String)
    (hob : env.openBrowser = Except.error e) :
    signInWithListener env A M
      = (Except.error (Error.NetworkError ("Failed to open browser: " ++ e)),
         [Event.openBrowser A]) := by
  simp only [signInWithListener, hob]

/-- Every HTTP request of the listener stage uses the no-follow redirect
policy. -/
theorem signInWithListener_http (env : SignInEnv) (A M ep : String) (pol : RedirectPolicy)
    (h : Event.httpRequest ep pol ∈ (signInWithListener env A M).2) :
    pol = RedirectPolicy.noFollow := by
  cases hob : env.openBrowser with
  | error e =>
    rw [signInWithListener_browser_error env A M e hob] at h
    simp at h
  | ok uu =>
    cases uu
    rcases hpr : processRedirect env.connectionAccepted env.readLine env.writeAll M with ⟨res, evs⟩
    cases res with
    | error e =>
      rw [signInWithListener_redirect_error env A M e evs hob hpr] at h
      simp only [List.mem_cons] at h
      rcases h with h1 | h1
      · exact absurd h1 (by simp)
      · rcases processRedirect_events _ _ _ _ _ (by rw [hpr]; exact h1) with h2 | ⟨b, h2⟩ <;>
          simp at h2
    | ok cs =>
      rw [signInWithListener_redirect_ok env A M cs evs hob hpr] at h
      simp only [List.mem_cons, List.mem_append] at h
      rcases h with h1 | h1 | h1
      · exact absurd h1 (by simp)
      · rcases processRedirect_events _ _ _ _ _ (by rw [hpr]; exact h1) with h2 | ⟨b, h2⟩ <;>
          simp at h2
      · have h3 := exchangeCode_events _ _ _ h1
        simp only [Event.httpRequest.injEq] at h3
        exact h3.2

/-- Every HTTP request of the configured sign-in flow uses the no-follow
redirect policy. -/
theorem signInConfigured_http (env : SignInEnv) (clientId : String) (scopes : List String)
    (host : String) (port : Option Nat) (shr : Option String) (ep : String)
    (pol : RedirectPolicy)
    (h : Event.httpRequest ep pol ∈ (signInConfigured env clientId scopes host port shr).2) :
    pol = RedirectPolicy.noFollow := by
  have hA : checkEndpointUrl GOOGLE_AUTH_URL "Invalid authorization endpoint URL"
      = Except.ok { scheme := "https", host := some "accounts.google.com", port := none,
                    path := "/o/oauth2/auth", query := none } := by decide
  have hT : checkEndpointUrl GOOGLE_TOKEN_URL "Invalid token endpoint URL"
      = Except.ok { scheme := "https", host := some "oauth2.googleapis.com", port := none,
                    path := "/token", query := none } := by decide
  have hR : checkEndpointUrl GOOGLE_REVOCATION_URL "Invalid revocation endpoint URL"
      = Except.ok { scheme := "https", host := some "oauth2.googleapis.com", port := none,
                    path := "/revoke", query := none } := by decide
  unfold signInConfigured at h
  simp only [hA, hT] at h
  rcases hb : bindListener env.bind port with e | ap
  · simp only [hb] at h
    simp at h
  · simp only [hb] at h
    rcases hc : checkEndpointUrl ("http://" ++ host ++ ":" ++ toString ap) "Invalid redirect URL"
        with e2 | u2
    · simp only [hc] at h
      simp at h
    · simp only [hc, hR] at h
      simp only [List.mem_cons] at h
      rcases h with h1 | h1
      · exact absurd h1 (by simp)
      · exact signInWithListener_http _ _ _ _ _ h1

/-- Every HTTP request of `signIn` uses the no-follow redirect
policy. -/
theorem signIn_http (env : SignInEnv) (p : SignInRequest) (ep : String) (pol : RedirectPolicy)
    (h : Event.httpRequest ep pol ∈ (signIn env p).2) :
    pol = RedirectPolicy.noFollow := by
  unfold signIn at h
  rcases hv : validateScopes p.scopes with e | scopes
  · simp only [hv] at h
    simp at h
  · simp only [hv] at h
    rcases hr : parseRedirectHostPort p.redirectUri with e | hp2
    · simp only [hr] at h
      simp at h
    · rcases hp2 with ⟨host, port⟩
      simp only [hr] at h
      rcases hsec : requireClientSecret p.clientSecret with e | sec
      · simp only [hsec] at h
        simp at h
      · simp only [hsec] at h
        exact signInConfigured_http _ _ _ _ _ _ _ _ h

/-- Every HTTP request of `signOut` uses the no-follow redirect
policy. -/
theorem signOut_http (env : SignOutEnv) (p : SignOutRequest) (ep : String)
    (pol : RedirectPolicy)
    (h : Event.httpRequest ep pol ∈ (signOut env p).2) :
    pol = RedirectPolicy.noFollow := by
  unfold signOut at h
  iterate 4 (all_goals (try split at h))
  all_goals simp_all

/-- Every HTTP request of `refreshToken` uses the no-follow redirect
policy. -/
theorem refreshToken_http (env : RefreshEnv) (p : RefreshTokenRequest) (ep : String)
    (pol : RedirectPolicy)
    (h : Event.httpRequest ep pol ∈ (refreshToken env p).2) :
    pol = RedirectPolicy.noFollow := by
  unfold refreshToken at h
  iterate 4 (all_goals (try split at h))
  all_goals simp_all

/-- Scope validation only ever fails with a configuration error. -/
theorem validateScopes_error (s : Option (List String)) (e : Error)
    (h : validateScopes s = Except.error e) : ∃ m, e = Error.ConfigurationError m := by
  unfold validateScopes at h
  iterate 3 (all_goals (try split at h))
  all_goals
    first
    | exact ⟨_, (Except.error.inj h).symm⟩
    | exact absurd h (by simp)

/-- Redirect-URI validation only ever fails with a configuration
error. -/
theorem parseRedirectHostPort_error (ru : Option String) (e : Error)
    (h : parseRedirectHostPort ru = Except.error e) : ∃ m, e = Error.ConfigurationError m := by
  unfold parseRedirectHostPort at h
  rcases ru with _ | uri
  · simp at h
  · iterate 4 (all_goals (try split at h))
    all_goals simp_all
    all_goals exact ⟨_, h.symm⟩

/-- Alphanumeric characters are not whitespace. -/
theorem alphanum_not_ws {x : Char} (h : x.isAlphanum = true) : x.isWhitespace = false := by
  have h1 := alphanum_ne h (show (' ' : Char).isAlphanum = false by decide)
  have h2 := alphanum_ne h (show ('\t' : Char).isAlphanum = false by decide)
  have h3 := alphanum_ne h (show ('\r' : Char).isAlphanum = false by decide)
  have h4 := alphanum_ne h (show ('\n' : Char).isAlphanum = false by decide)
  simp [Char.isWhitespace, h1, h2, h3, h4]

/-- A literal redirect request carrying plain code and state values is
accepted, the success response is written, and exactly the literal
values are extracted. -/
theorem processRedirect_literal (c s m : String) (w : Except String Unit)
    (hc : PlainToken c) (hs : PlainToken s) (hw : w = Except.ok ()) :
    processRedirect true (Except.ok ("GET /?code=" ++ c ++ "&state=" ++ s ++ " HTTP/1.1\r\n")) w m
      = (Except.ok (c, s), [Event.accept, Event.writeResponse (mkSuccessResponse m)]) := by
  have hline : ("GET /?code=" ++ c ++ "&state=" ++ s ++ " HTTP/1.1\r\n")
      = ("GET " ++ ("/?code=" ++ c ++ "&state=" ++ s) ++ " HTTP/1.1\r\n") := by
    apply stringDataEq
    simp only [String.data_append, List.append_assoc]
    rfl
  rw [hline]
  have hpne : ("/?code=" ++ c ++ "&state=" ++ s).data ≠ [] := by
    simp only [String.data_append]
    intro hcontra
    simp at hcontra
  have hpws : ∀ x ∈ ("/?code=" ++ c ++ "&state=" ++ s).data, x.isWhitespace = false := by
    intro x hx
    simp only [String.data_append, List.mem_append] at hx
    rcases hx with ((hx | hx) | hx) | hx
    · exact (by decide : ∀ y ∈ "/?code=".data, y.isWhitespace = false) x hx
    · exact alphanum_not_ws (hc.2 x hx)
    · exact (by decide : ∀ y ∈ "&state=".data, y.isWhitespace = false) x hx
    · exact alphanum_not_ws (hs.2 x hx)
  have hsplit := splitWhitespace_requestLine _ hpne hpws
  have hp : (splitWhitespaceModel
      ("GET " ++ ("/?code=" ++ c ++ "&state=" ++ s) ++ " HTTP/1.1\r\n")).get? 1
      = some ("/?code=" ++ c ++ "&state=" ++ s) := by
    rw [hsplit]
    rfl
  have hqhash : ∀ x ∈ ("code=" ++ c ++ "&state=" ++ s).data, (x != '#') = true := by
    intro x hx
    simp only [String.data_append, List.mem_append] at hx
    rcases hx with ((hx | hx) | hx) | hx
    · exact (by decide : ∀ y ∈ "code=".data, (y != '#') = true) x hx
    · exact plain_bne hc (by decide) x hx
    · exact (by decide : ∀ y ∈ "&state=".data, (y != '#') = true) x hx
    · exact plain_bne hs (by decide) x hx
  have hqurl : ("http://" ++ DEFAULT_REDIRECT_HOST ++ ("/?code=" ++ c ++ "&state=" ++ s))
      = ("http://localhost/?" ++ ("code=" ++ c ++ "&state=" ++ s)) := by
    apply stringDataEq
    simp only [String.data_append, List.append_assoc, DEFAULT_REDIRECT_HOST]
    rfl
  have hu2 : parseUrl ("http://" ++ DEFAULT_REDIRECT_HOST ++ ("/?code=" ++ c ++ "&state=" ++ s))
      = Except.ok (localhostQueryParts ("code=" ++ c ++ "&state=" ++ s)) := by
    rw [hqurl]
    exact parseUrl_localhost_query _ hqhash
  have hqp : urlQueryPairs (localhostQueryParts ("code=" ++ c ++ "&state=" ++ s))
      = [("code", c), ("state", s)] := by
    simp only [urlQueryPairs, localhostQueryParts]
    exact parseQueryPairs_code_state c s hc hs
  have hfc : (urlQueryPairs (localhostQueryParts ("code=" ++ c ++ "&state=" ++ s))).find?
        (fun kv => kv.1 == "code") = some ("code", c) := by
    rw [hqp]
    rfl
  have hfs : (urlQueryPairs (localhostQueryParts ("code=" ++ c ++ "&state=" ++ s))).find?
        (fun kv => kv.1 == "state") = some ("state", s) := by
    rw [hqp]
    rfl
  exact processRedirect_found _ _ _ _ _ w m hp hu2 hfc hfs hw

/-- A literal redirect request carrying a code but no state parameter
is rejected with the state authentication failure, and nothing is
written. -/
theorem processRedirect_literal_nostate (c m : String) (w : Except String Unit)
    (hc : PlainToken c) :
    processRedirect true (Except.ok ("GET /?code=" ++ c ++ " HTTP/1.1\r\n")) w m
      = (Except.error (Error.AuthenticationFailed "State parameter not found in response"),
         [Event.accept]) := by
  have hline : ("GET /?code=" ++ c ++ " HTTP/1.1\r\n")
      = ("GET " ++ ("/?code=" ++ c) ++ " HTTP/1.1\r\n") := by
    apply stringDataEq
    simp only [String.data_append, List.append_assoc]
    rfl
  rw [hline]
  have hpne : ("/?code=" ++ c).data ≠ [] := by
    simp only [String.data_append]
    intro hcontra
    simp at hcontra
  have hpws : ∀ x ∈ ("/?code=" ++ c).data, x.isWhitespace = false := by
    intro x hx
    simp only [String.data_append, List.mem_append] at hx
    rcases hx with hx | hx
    · exact (by decide : ∀ y ∈ "/?code=".data, y.isWhitespace = false) x hx
    · exact alphanum_not_ws (hc.2 x hx)
  have hsplit := splitWhitespace_requestLine _ hpne hpws
  have hp : (splitWhitespaceModel ("GET " ++ ("/?code=" ++ c) ++ " HTTP/1.1\r\n")).get? 1
      = some ("/?code=" ++ c) := by
    rw [hsplit]
    rfl
  have hqhash : ∀ x ∈ ("code=" ++ c).data, (x != '#') = true := by
    intro x hx
    simp only [String.data_append, List.mem_append] at hx
    rcases hx with hx | hx
    · exact (by decide : ∀ y ∈ "code=".data, (y != '#') = true) x hx
    · exact plain_bne hc (by decide) x hx
  have hqurl : ("http://" ++ DEFAULT_REDIRECT_HOST ++ ("/?code=" ++ c))
      = ("http://localhost/?" ++ ("code=" ++ c)) := by
    apply stringDataEq
    simp only [String.data_append, List.append_assoc, DEFAULT_REDIRECT_HOST]
    rfl
  have hu2 : parseUrl ("http://" ++ DEFAULT_REDIRECT_HOST ++ ("/?code=" ++ c))
      = Except.ok (localhostQueryParts ("code=" ++ c)) := by
    rw [hqurl]
    exact parseUrl_localhost_query _ hqhash
  have hqp : urlQueryPairs (localhostQueryParts ("code=" ++ c)) = [("code", c)] := by
    simp only [urlQueryPairs, localhostQueryParts]
    exact parseQueryPairs_code_only c hc
  have hfc : (urlQueryPairs (localhostQueryParts ("code=" ++ c))).find? (fun kv => kv.1 == "code")
      = some ("code", c) := by
    rw [hqp]
    rfl
  have hfs : (urlQueryPairs (localhostQueryParts ("code=" ++ c))).find? (fun kv => kv.1 == "state")
      = none := by
    rw [hqp]
    rfl
  exact processRedirect_missing_state _ _ _ _ w m hp hu2 hfc hfs

/-- The listener stage always records the browser launch on the built
authorization URL. -/
theorem signInWithListener_openBrowser_mem (env : SignInEnv) (A M : String) :
    Event.openBrowser A ∈ (signInWithListener env A M).2 := by
  cases hob : env.openBrowser with
  | error e =>
    rw [signInWithListener_browser_error env A M e hob]
    simp
  | ok uu =>
    cases uu
    rcases hpr : processRedirect env.connectionAccepted env.readLine env.writeAll M with ⟨res, evs⟩
    cases res with
    | error e =>
      rw [signInWithListener_redirect_error env A M e evs hob hpr]
      simp
    | ok cs =>
      rw [signInWithListener_redirect_ok env A M cs evs hob hpr]
      simp

/-- C4: for every sign_in call whose scopes are absent or empty, and for
every sign_in call whose redirect URI has a host other than localhost or
127.0.0.1, the call fails with a configuration error before any TCP
socket is bound: the returned trace is empty, so no listener was ever
created. -/
theorem c4_validation_before_bind
    (env1 env2 env3 : SignInEnv) (p1 p2 p3 : SignInRequest)
    (h1 : p1.scopes = none)
    (h2 : p2.scopes = some [])
    (l3 : List String) (h3s : p3.scopes = some l3) (h3ne : l3 ≠ [])
    (uri : String) (hu : p3.redirectUri = some uri)
    (parts : UrlParts) (hp : parseUrl uri = Except.ok parts)
    (host : String) (hh : parts.host = some host)
    (hb1 : host ≠ DEFAULT_REDIRECT_HOST) (hb2 : host ≠ LOCALHOST_ADDR) :
    signIn env1 p1 = (Except.error (Error.ConfigurationError
        "No scopes provided. At least one scope is required for authentication"), [])
    ∧ signIn env2 p2 = (Except.error (Error.ConfigurationError
        "Empty scopes array. At least one scope is required for authentication"), [])
    ∧ signIn env3 p3 = (Except.error (Error.ConfigurationError
        "Redirect URI must use localhost or 127.0.0.1 for desktop authentication"), []) := by
  refine ⟨?_, ?_, ?_⟩
  · simp [signIn, validateScopes, h1]
  · simp [signIn, validateScopes, h2]
  · have hemp : l3.isEmpty = false := by
      cases l3 with
      | nil => exact absurd rfl h3ne
      | cons a l => rfl
    have hval : validateScopes p3.scopes = Except.ok l3 := by
      simp [validateScopes, h3s, hemp]
    have hc1 : (host != DEFAULT_REDIRECT_HOST) = true := bne_iff_ne.mpr hb1
    have hc2 : (host != LOCALHOST_ADDR) = true := bne_iff_ne.mpr hb2
    have hred : parseRedirectHostPort p3.redirectUri = Except.error (Error.ConfigurationError
        "Redirect URI must use localhost or 127.0.0.1 for desktop authentication") := by
      simp [parseRedirectHostPort, hu, hp, hh, hc1, hc2]
    simp [signIn, hval, hred]

/-- C4 witness at concrete inputs. -/
theorem c4_validation_before_bind_witness :
    signIn
        { csrfToken := "c", pkceChallenge := "ch", pkceVerifier := "v"
          bind := fun _ => Except.ok 8080, openBrowser := Except.ok ()
          connectionAccepted := true, readLine := Except.ok ""
          writeAll := Except.ok (), exchange := WorkerOutcome.panicked, now := 0 }
        { clientId := "id", clientSecret := some "sec", scopes := none
          hostedDomain := none, loginHint := none, redirectUri := none
          successHtmlResponse := none, flowType := none }
      = (Except.error (Error.ConfigurationError
          "No scopes provided. At least one scope is required for authentication"), [])
    ∧ signIn
        { csrfToken := "c", pkceChallenge := "ch", pkceVerifier := "v"
          bind := fun _ => Except.ok 8080, openBrowser := Except.ok ()
          connectionAccepted := true, readLine := Except.ok ""
          writeAll := Except.ok (), exchange := WorkerOutcome.panicked, now := 0 }
        { clientId := "id", clientSecret := some "sec", scopes := some []
          hostedDomain := none, loginHint := none, redirectUri := none
          successHtmlResponse := none, flowType := none }
      = (Except.error (Error.ConfigurationError
          "Empty scopes array. At least one scope is required for authentication"), [])
    ∧ signIn
        { csrfToken := "c", pkceChallenge := "ch", pkceVerifier := "v"
          bind := fun _ => Except.ok 8080, openBrowser := Except.ok ()
          connectionAccepted := true, readLine := Except.ok ""
          writeAll := Except.ok (), exchange := WorkerOutcome.panicked, now := 0 }
        { clientId := "id", clientSecret := some "sec", scopes := some ["email"]
          hostedDomain := none, loginHint := none
          redirectUri := some "http://evil.com/callback"
          successHtmlResponse := none, flowType := none }
      = (Except.error (Error.ConfigurationError
          "Redirect URI must use localhost or 127.0.0.1 for desktop authentication"), []) :=
  c4_validation_before_bind _ _ _ _ _ _ rfl rfl ["email"] rfl (by decide)
    "http://evil.com/callback" rfl
    { scheme := "http", host := some "evil.com", port := none
      path := "/callback", query := none }
    (by decide) "evil.com" rfl (by decide) (by decide)

/-- C8: for every sign_in call and every refresh_token call in which the
client secret is absent, the call fails with a configuration error
before any network I/O: the returned trace is empty, so no socket was
bound and no HTTP request was made. -/
theorem c8_missing_secret (envS : SignInEnv) (pS : SignInRequest) (envR : RefreshEnv)
    (pR : RefreshTokenRequest) (hS : pS.clientSecret = none) (hR : pR.clientSecret = none) :
    (∃ m, signIn envS pS = (Except.error (Error.ConfigurationError m), []))
    ∧ refreshToken envR pR = (Except.error (Error.ConfigurationError
        "Client secret is required for desktop authentication"), []) := by
  constructor
  · rcases hv : validateScopes pS.scopes with e | scopes
    · rcases validateScopes_error _ _ hv with ⟨m, rfl⟩
      exact ⟨m, by simp [signIn, hv]⟩
    · rcases hr : parseRedirectHostPort pS.redirectUri with e | hp
      · rcases parseRedirectHostPort_error _ _ hr with ⟨m, rfl⟩
        exact ⟨m, by simp [signIn, hv, hr]⟩
      · rcases hp with ⟨host, port⟩
        refine ⟨"Client secret is required for desktop authentication", ?_⟩
        simp [signIn, hv, hr, requireClientSecret, hS]
  · simp [refreshToken, requireClientSecret, hR]

/-- C8 witness at concrete inputs. -/
theorem c8_missing_secret_witness :
    (∃ m, signIn
        { csrfToken := "c", pkceChallenge := "ch", pkceVerifier := "v"
          bind := fun _ => Except.ok 8080, openBrowser := Except.ok ()
          connectionAccepted := true, readLine := Except.ok ""
          writeAll := Except.ok (), exchange := WorkerOutcome.panicked, now := 0 }
        { clientId := "id", clientSecret := none, scopes := some ["email"]
          hostedDomain := none, loginHint := none, redirectUri := none
          successHtmlResponse := none, flowType := none }
      = (Except.error (Error.ConfigurationError m), []))
    ∧ refreshToken { exchange := WorkerOutcome.panicked, now := 0 }
        { refreshToken := some "rt", clientId := "id", clientSecret := none
          scopes := none, flowType := none }
      = (Except.error (Error.ConfigurationError
          "Client secret is required for desktop authentication"), []) :=
  c8_missing_secret _ _ _ _ rfl rfl

/-- C1 counterexample: with an access token supplied and a revocation
worker outcome that is a transport failure, not a panic, sign_out
surfaces a network error instead of returning success, refuting the
claim that a worker panic is the sole exception. -/
theorem c1_counterexample :
    (signOut { revoke := WorkerOutcome.requestFailed "connection refused" }
        { accessToken := some "tok", flowType := none }).1
      = Except.error (Error.NetworkError "Failed to revoke token: connection refused")
    ∧ (signOut { revoke := WorkerOutcome.requestFailed "connection refused" }
        { accessToken := some "tok", flowType := none }).1
      ≠ Except.ok { success := true }
    ∧ (WorkerOutcome.requestFailed "connection refused" : WorkerOutcome Nat)
      ≠ WorkerOutcome.panicked := by
  refine ⟨by decide, by decide, by decide⟩

/-- C1 amended: sign_out with no access token returns success with no
network call; with a token and a completed revocation response it
returns success whatever the HTTP status; a worker panic surfaces as an
authentication failure, and an HTTP-client build failure or transport
failure during revocation surfaces as a network error. -/
theorem c1_amended
    (env1 env2 env3 env4 env5 : SignOutEnv) (p1 p2 p3 p4 p5 : SignOutRequest)
    (h1 : p1.accessToken = none)
    (t2 : String) (h2t : p2.accessToken = some t2) (s2 : Nat)
    (h2 : env2.revoke = WorkerOutcome.ok s2)
    (t3 : String) (h3t : p3.accessToken = some t3)
    (h3 : env3.revoke = WorkerOutcome.panicked)
    (t4 e4 : String) (h4t : p4.accessToken = some t4)
    (h4 : env4.revoke = WorkerOutcome.buildFailed e4)
    (t5 e5 : String) (h5t : p5.accessToken = some t5)
    (h5 : env5.revoke = WorkerOutcome.requestFailed e5) :
    signOut env1 p1 = (Except.ok { success := true }, [])
    ∧ (signOut env2 p2).1 = Except.ok { success := true }
    ∧ (signOut env3 p3).1
        = Except.error (Error.AuthenticationFailed "Token exchange thread panicked")
    ∧ (signOut env4 p4).1
        = Except.error (Error.NetworkError ("Failed to build HTTP client: " ++ e4))
    ∧ (signOut env5 p5).1
        = Except.error (Error.NetworkError ("Failed to revoke token: " ++ e5)) := by
  refine ⟨?_, ?_, ?_, ?_, ?_⟩
  · simp [signOut, h1]
  · simp only [signOut, h2t, h2]
    split <;> rfl
  · simp [signOut, h3t, h3]
  · simp [signOut, h4t, h4]
  · simp [signOut, h5t, h5]

/-- C1 amended witness at concrete inputs, exercising status 400. -/
theorem c1_amended_witness :
    signOut { revoke := WorkerOutcome.panicked } { accessToken := none, flowType := none }
      = (Except.ok { success := true }, [])
    ∧ (signOut { revoke := WorkerOutcome.ok 400 }
        { accessToken := some "tok", flowType := none }).1 = Except.ok { success := true }
    ∧ (signOut { revoke := WorkerOutcome.panicked }
        { accessToken := some "tok", flowType := none }).1
      = Except.error (Error.AuthenticationFailed "Token exchange thread panicked")
    ∧ (signOut { revoke := WorkerOutcome.buildFailed "tls" }
        { accessToken := some "tok", flowType := none }).1
      = Except.error (Error.NetworkError ("Failed to build HTTP client: " ++ "tls"))
    ∧ (signOut { revoke := WorkerOutcome.requestFailed "refused" }
        { accessToken := some "tok", flowType := none }).1
      = Except.error (Error.NetworkError ("Failed to revoke token: " ++ "refused")) :=
  c1_amended _ _ _ _ _ _ _ _ _ _ rfl "tok" rfl 400 rfl "tok" rfl rfl "tok" "tls" rfl rfl
    "tok" "refused" rfl rfl

/-- C5: every HTTP request made by the three public operations goes
through a client configured never to follow redirects. -/
theorem c5_no_follow_redirects (envS : SignInEnv) (pS : SignInRequest) (envO : SignOutEnv)
    (pO : SignOutRequest) (envR : RefreshEnv) (pR : RefreshTokenRequest) (ep : String)
    (pol : RedirectPolicy) :
    (Event.httpRequest ep pol ∈ (signIn envS pS).2 → pol = RedirectPolicy.noFollow)
    ∧ (Event.httpRequest ep pol ∈ (signOut envO pO).2 → pol = RedirectPolicy.noFollow)
    ∧ (Event.httpRequest ep pol ∈ (refreshToken envR pR).2 → pol = RedirectPolicy.noFollow) :=
  ⟨signIn_http envS pS ep pol, signOut_http envO pO ep pol, refreshToken_http envR pR ep pol⟩

/-- C5 witness: a concrete revocation request event appears in the trace
and carries the no-follow policy. -/
theorem c5_no_follow_redirects_witness :
    Event.httpRequest GOOGLE_REVOCATION_URL RedirectPolicy.noFollow
        ∈ (signOut { revoke := WorkerOutcome.ok 200 }
            { accessToken := some "tok", flowType := none }).2
    ∧ RedirectPolicy.noFollow = RedirectPolicy.noFollow :=
  ⟨by decide,
    (c5_no_follow_redirects
      { csrfToken := "c", pkceChallenge := "ch", pkceVerifier := "v"
        bind := fun _ => Except.ok 8080, openBrowser := Except.ok ()
        connectionAccepted := true, readLine := Except.ok ""
        writeAll := Except.ok (), exchange := WorkerOutcome.panicked, now := 0 }
      { clientId := "id", clientSecret := some "sec", scopes := some ["email"]
        hostedDomain := none, loginHint := none, redirectUri := none
        successHtmlResponse := none, flowType := none }
      { revoke := WorkerOutcome.ok 200 }
      { accessToken := some "tok", flowType := none }
      { exchange := WorkerOutcome.panicked, now := 0 }
      { refreshToken := some "rt", clientId := "id", clientSecret := some "sec"
        scopes := none, flowType := none }
      GOOGLE_REVOCATION_URL RedirectPolicy.noFollow).2.1 (by decide)⟩

/-- C6: when the redirect URI supplies an explicit nonzero port and the
bind succeeds, the bound port equals the requested port (given the OS
bind contract for nonzero ports), and the authorization URL opened in
the browser is built from a redirect URI embedding exactly that port;
with no port supplied, the listener is bound with port 0 (OS-assigned)
and the authorization URL embeds exactly the port the OS reported. -/
theorem c6_bound_port
    (env1 : SignInEnv) (p1 : SignInRequest) (scopes1 : List String) (host1 : String)
    (sec1 : String) (prt bp1 : Nat) (u1 : UrlParts)
    (hs1 : validateScopes p1.scopes = Except.ok scopes1)
    (hr1 : parseRedirectHostPort p1.redirectUri = Except.ok (host1, some prt))
    (hsec1 : requireClientSecret p1.clientSecret = Except.ok sec1)
    (_hprt0 : prt ≠ 0)
    (hOS : ∀ q, env1.bind prt = Except.ok q → q = prt)
    (hbind1 : env1.bind prt = Except.ok bp1)
    (hu1 : parseUrl ("http://" ++ host1 ++ ":" ++ toString prt) = Except.ok u1)
    (env2 : SignInEnv) (p2 : SignInRequest) (scopes2 : List String) (host2 : String)
    (sec2 : String) (bp2 : Nat) (u2 : UrlParts)
    (hs2 : validateScopes p2.scopes = Except.ok scopes2)
    (hr2 : parseRedirectHostPort p2.redirectUri = Except.ok (host2, none))
    (hsec2 : requireClientSecret p2.clientSecret = Except.ok sec2)
    (hbind2 : env2.bind 0 = Except.ok bp2)
    (hu2 : parseUrl ("http://" ++ host2 ++ ":" ++ toString bp2) = Except.ok u2) :
    (bp1 = prt
      ∧ Event.bind prt ∈ (signIn env1 p1).2
      ∧ Event.openBrowser (buildAuthorizeUrl p1.clientId
            ("http://" ++ host1 ++ ":" ++ toString prt) scopes1 env1.csrfToken
            env1.pkceChallenge) ∈ (signIn env1 p1).2)
    ∧ (Event.bind 0 ∈ (signIn env2 p2).2
      ∧ Event.openBrowser (buildAuthorizeUrl p2.clientId
            ("http://" ++ host2 ++ ":" ++ toString bp2) scopes2 env2.csrfToken
            env2.pkceChallenge) ∈ (signIn env2 p2).2) := by
  have hbp : bp1 = prt := hOS bp1 hbind1
  constructor
  · have hbl : bindListener env1.bind (some prt) = Except.ok prt := by
      rw [hbp] at hbind1
      simp [bindListener, hbind1]
    rw [signIn_validated env1 p1 scopes1 host1 (some prt) sec1 hs1 hr1 hsec1,
        signInConfigured_bound env1 p1.clientId scopes1 host1 (some prt)
          p1.successHtmlResponse prt u1 hbl hu1]
    refine ⟨hbp, ?_, ?_⟩
    · simp
    · simp only [Option.getD]
      exact List.mem_cons_of_mem _ (signInWithListener_openBrowser_mem env1 _ _)
  · have hbl : bindListener env2.bind none = Except.ok bp2 := by
      simp [bindListener, hbind2]
    rw [signIn_validated env2 p2 scopes2 host2 none sec2 hs2 hr2 hsec2,
        signInConfigured_bound env2 p2.clientId scopes2 host2 none
          p2.successHtmlResponse bp2 u2 hbl hu2]
    refine ⟨?_, ?_⟩
    · simp
    · exact List.mem_cons_of_mem _ (signInWithListener_openBrowser_mem env2 _ _)

/-- C6 witness at concrete inputs: explicit port 8080 and an ephemeral
bind reported as 49152. -/
theorem c6_bound_port_witness :
    (8080 = 8080
      ∧ Event.bind 8080 ∈ (signIn
          { csrfToken := "c", pkceChallenge := "ch", pkceVerifier := "v"
            bind := fun p => Except.ok (if p = 0 then 49152 else p)
            openBrowser := Except.ok (), connectionAccepted := true
            readLine := Except.ok "", writeAll := Except.ok ()
            exchange := WorkerOutcome.panicked, now := 0 }
          { clientId := "id", clientSecret := some "sec", scopes := some ["email"]
            hostedDomain := none, loginHint := none
            redirectUri := some "http://localhost:8080"
            successHtmlResponse := none, flowType := none }).2
      ∧ Event.openBrowser (buildAuthorizeUrl "id" ("http://" ++ "localhost" ++ ":" ++
            toString 8080) ["email"] "c" "ch") ∈ (signIn
          { csrfToken := "c", pkceChallenge := "ch", pkceVerifier := "v"
            bind := fun p => Except.ok (if p = 0 then 49152 else p)
            openBrowser := Except.ok (), connectionAccepted := true
            readLine := Except.ok "", writeAll := Except.ok ()
            exchange := WorkerOutcome.panicked, now := 0 }
          { clientId := "id", clientSecret := some "sec", scopes := some ["email"]
            hostedDomain := none, loginHint := none
            redirectUri := some "http://localhost:8080"
            successHtmlResponse := none, flowType := none }).2)
    ∧ (Event.bind 0 ∈ (signIn
          { csrfToken := "c", pkceChallenge := "ch", pkceVerifier := "v"
            bind := fun p => Except.ok (if p = 0 then 49152 else p)
            openBrowser := Except.ok (), connectionAccepted := true
            readLine := Except.ok "", writeAll := Except.ok ()
            exchange := WorkerOutcome.panicked, now := 0 }
          { clientId := "id", clientSecret := some "sec", scopes := some ["email"]
            hostedDomain := none, loginHint := none, redirectUri := none
            successHtmlResponse := none, flowType := none }).2
      ∧ Event.openBrowser (buildAuthorizeUrl "id" ("http://" ++ "localhost" ++ ":" ++
            toString 49152) ["email"] "c" "ch") ∈ (signIn
          { csrfToken := "c", pkceChallenge := "ch", pkceVerifier := "v"
            bind := fun p => Except.ok (if p = 0 then 49152 else p)
            openBrowser := Except.ok (), connectionAccepted := true
            readLine := Except.ok "", writeAll := Except.ok ()
            exchange := WorkerOutcome.panicked, now := 0 }
          { clientId := "id", clientSecret := some "sec", scopes := some ["email"]
            hostedDomain := none, loginHint := none, redirectUri := none
            successHtmlResponse := none, flowType := none }).2) :=
  c6_bound_port
    { csrfToken := "c", pkceChallenge := "ch", pkceVerifier := "v"
      bind := fun p => Except.ok (if p = 0 then 49152 else p)
      openBrowser := Except.ok (), connectionAccepted := true
      readLine := Except.ok "", writeAll := Except.ok ()
      exchange := WorkerOutcome.panicked, now := 0 }
    { clientId := "id", clientSecret := some "sec", scopes := some ["email"]
      hostedDomain := none, loginHint := none
      redirectUri := some "http://localhost:8080"
      successHtmlResponse := none, flowType := none }
    ["email"] "localhost" "sec" 8080 8080
    { scheme := "http", host := some "localhost", port := some 8080
      path := "", query := none }
    (by decide) (by decide) (by decide) (by decide)
    (fun q h => by simpa using (Except.ok.inj h).symm)
    (by decide) (by decide)
    { csrfToken := "c", pkceChallenge := "ch", pkceVerifier := "v"
      bind := fun p => Except.ok (if p = 0 then 49152 else p)
      openBrowser := Except.ok (), connectionAccepted := true
      readLine := Except.ok "", writeAll := Except.ok ()
      exchange := WorkerOutcome.panicked, now := 0 }
    { clientId := "id", clientSecret := some "sec", scopes := some ["email"]
      hostedDomain := none, loginHint := none, redirectUri := none
      successHtmlResponse := none, flowType := none }
    ["email"] "localhost" "sec" 49152
    { scheme := "http", host := some "localhost", port := some 49152
      path := "", query := none }
    (by decide) (by decide) (by decide) (by decide) (by decide)

/-- Under a validated configuration, a successful bind, browser launch
and redirect, `signIn` returns exactly the exchange outcome, after the
bind, browser, and redirect events. -/
theorem signIn_exchange_result (env : SignInEnv) (p : SignInRequest) (scopes : List String)
    (host : String) (port : Option Nat) (sec : String) (ap : Nat) (u : UrlParts)
    (cs : String × String) (evs : List Event)
    (hs : validateScopes p.scopes = Except.ok scopes)
    (hr : parseRedirectHostPort p.redirectUri = Except.ok (host, port))
    (hsec : requireClientSecret p.clientSecret = Except.ok sec)
    (hb : bindListener env.bind port = Except.ok ap)
    (hu : parseUrl ("http://" ++ host ++ ":" ++ toString ap) = Except.ok u)
    (hob : env.openBrowser = Except.ok ())
    (hpr : processRedirect env.connectionAccepted env.readLine env.writeAll
        (p.successHtmlResponse.getD SUCCESS_HTML_RESPONSE) = (Except.ok cs, evs)) :
    signIn env p = ((exchangeCode env.exchange env.now).1,
      Event.bind (port.getD 0) :: Event.openBrowser (buildAuthorizeUrl p.clientId
          ("http://" ++ host ++ ":" ++ toString ap) scopes env.csrfToken env.pkceChallenge)
        :: (evs ++ (exchangeCode env.exchange env.now).2)) := by
  rw [signIn_validated env p scopes host port sec hs hr hsec,
      signInConfigured_bound env p.clientId scopes host port p.successHtmlResponse ap u hb hu,
      signInWithListener_redirect_ok env _ _ cs evs hob hpr]

/-- Under a validated configuration, a successful bind and browser
launch, a failing redirect stage makes `signIn` return that error with
the redirect-stage events. -/
theorem signIn_redirect_error_result (env : SignInEnv) (p : SignInRequest)
    (scopes : List String) (host : String) (port : Option Nat) (sec : String) (ap : Nat)
    (u : UrlParts) (e : Error) (evs : List Event)
    (hs : validateScopes p.scopes = Except.ok scopes)
    (hr : parseRedirectHostPort p.redirectUri = Except.ok (host, port))
    (hsec : requireClientSecret p.clientSecret = Except.ok sec)
    (hb : bindListener env.bind port = Except.ok ap)
    (hu : parseUrl ("http://" ++ host ++ ":" ++ toString ap) = Except.ok u)
    (hob : env.openBrowser = Except.ok ())
    (hpr : processRedirect env.connectionAccepted env.readLine env.writeAll
        (p.successHtmlResponse.getD SUCCESS_HTML_RESPONSE) = (Except.error e, evs)) :
    signIn env p = (Except.error e,
      Event.bind (port.getD 0) :: Event.openBrowser (buildAuthorizeUrl p.clientId
          ("http://" ++ host ++ ":" ++ toString ap) scopes env.csrfToken env.pkceChallenge)
        :: evs) := by
  rw [signIn_validated env p scopes host port sec hs hr hsec,
      signInConfigured_bound env p.clientId scopes host port p.successHtmlResponse ap u hb hu,
      signInWithListener_redirect_error env _ _ e evs hob hpr]

/-- C2: a redirect carrying a state value different from the CSRF token
embedded in the outgoing authorization URL is still accepted, and the
flow completes with the exchange result; a redirect lacking the state
parameter is rejected with an authentication failure.  The state value
is never compared against the one sent. -/
theorem c2_state_presence_only (env : SignInEnv) (p : SignInRequest) (scopes : List String)
    (host : String) (port : Option Nat) (sec : String) (ap : Nat) (u : UrlParts)
    (c s : String) (tr : ProviderTokenResponse)
    (env2 : SignInEnv) (p2 : SignInRequest) (scopes2 : List String) (host2 : String)
    (port2 : Option Nat) (sec2 : String) (ap2 : Nat) (u2 : UrlParts) (c2 : String)
    (hs : validateScopes p.scopes = Except.ok scopes)
    (hr : parseRedirectHostPort p.redirectUri = Except.ok (host, port))
    (hsec : requireClientSecret p.clientSecret = Except.ok sec)
    (hb : bindListener env.bind port = Except.ok ap)
    (hu : parseUrl ("http://" ++ host ++ ":" ++ toString ap) = Except.ok u)
    (hob : env.openBrowser = Except.ok ())
    (hconn : env.connectionAccepted = true)
    (hline : env.readLine
      = Except.ok ("GET /?code=" ++ c ++ "&state=" ++ s ++ " HTTP/1.1\r\n"))
    (hc : PlainToken c) (hsP : PlainToken s)
    (_hneq : s ≠ env.csrfToken)
    (hw : env.writeAll = Except.ok ())
    (hx : env.exchange = WorkerOutcome.ok tr)
    (hs2 : validateScopes p2.scopes = Except.ok scopes2)
    (hr2 : parseRedirectHostPort p2.redirectUri = Except.ok (host2, port2))
    (hsec2 : requireClientSecret p2.clientSecret = Except.ok sec2)
    (hb2 : bindListener env2.bind port2 = Except.ok ap2)
    (hu2 : parseUrl ("http://" ++ host2 ++ ":" ++ toString ap2) = Except.ok u2)
    (hob2 : env2.openBrowser = Except.ok ())
    (hconn2 : env2.connectionAccepted = true)
    (hline2 : env2.readLine = Except.ok ("GET /?code=" ++ c2 ++ " HTTP/1.1\r\n"))
    (hc2 : PlainToken c2) :
    (signIn env p).1 = Except.ok (normalizeTokenResponse env.now tr)
    ∧ (signIn env2 p2).1
      = Except.error (Error.AuthenticationFailed "State parameter not found in response") := by
  constructor
  · have hpr : processRedirect env.connectionAccepted env.readLine env.writeAll
        (p.successHtmlResponse.getD SUCCESS_HTML_RESPONSE)
        = (Except.ok (c, s),
           [Event.accept, Event.writeResponse
              (mkSuccessResponse (p.successHtmlResponse.getD SUCCESS_HTML_RESPONSE))]) := by
      rw [hconn, hline]
      exact processRedirect_literal c s _ env.writeAll hc hsP hw
    rw [signIn_exchange_result env p scopes host port sec ap u (c, s) _
        hs hr hsec hb hu hob hpr]
    simp [exchangeCode, hx]
  · have hpr2 : processRedirect env2.connectionAccepted env2.readLine env2.writeAll
        (p2.successHtmlResponse.getD SUCCESS_HTML_RESPONSE)
        = (Except.error (Error.AuthenticationFailed "State parameter not found in response"),
           [Event.accept]) := by
      rw [hconn2, hline2]
      exact processRedirect_literal_nostate c2 _ env2.writeAll hc2
    rw [signIn_redirect_error_result env2 p2 scopes2 host2 port2 sec2 ap2 u2 _ _
        hs2 hr2 hsec2 hb2 hu2 hob2 hpr2]

/-- C2 witness at concrete inputs: the returned state xyz differs from
the CSRF token csrf1 that was embedded, yet the flow succeeds; a
redirect without state fails. -/
theorem c2_state_presence_only_witness :
    (signIn
        { csrfToken := "csrf1", pkceChallenge := "ch", pkceVerifier := "v"
          bind := fun p => Except.ok (if p = 0 then 49152 else p)
          openBrowser := Except.ok (), connectionAccepted := true
          readLine := Except.ok ("GET /?code=" ++ "abc123" ++ "&state=" ++ "xyz"
            ++ " HTTP/1.1\r\n")
          writeAll := Except.ok ()
          exchange := WorkerOutcome.ok
            { accessToken := "AT", refreshToken := some "RT", idToken := some "IDT"
              scopes := some ["email"], expiresIn := some 3600 }
          now := 1000 }
        { clientId := "id", clientSecret := some "sec", scopes := some ["email"]
          hostedDomain := none, loginHint := none, redirectUri := none
          successHtmlResponse := none, flowType := none }).1
      = Except.ok (normalizeTokenResponse 1000
          { accessToken := "AT", refreshToken := some "RT", idToken := some "IDT"
            scopes := some ["email"], expiresIn := some 3600 })
    ∧ (signIn
        { csrfToken := "csrf1", pkceChallenge := "ch", pkceVerifier := "v"
          bind := fun p => Except.ok (if p = 0 then 49152 else p)
          openBrowser := Except.ok (), connectionAccepted := true
          readLine := Except.ok ("GET /?code=" ++ "abc123" ++ " HTTP/1.1\r\n")
          writeAll := Except.ok ()
          exchange := WorkerOutcome.ok
            { accessToken := "AT", refreshToken := some "RT", idToken := some "IDT"
              scopes := some ["email"], expiresIn := some 3600 }
          now := 1000 }
        { clientId := "id", clientSecret := some "sec", scopes := some ["email"]
          hostedDomain := none, loginHint := none, redirectUri := none
          successHtmlResponse := none, flowType := none }).1
      = Except.error (Error.AuthenticationFailed "State parameter not found in response") :=
  c2_state_presence_only
    { csrfToken := "csrf1", pkceChallenge := "ch", pkceVerifier := "v"
      bind := fun p => Except.ok (if p = 0 then 49152 else p)
      openBrowser := Except.ok (), connectionAccepted := true
      readLine := Except.ok ("GET /?code=" ++ "abc123" ++ "&state=" ++ "xyz"
        ++ " HTTP/1.1\r\n")
      writeAll := Except.ok ()
      exchange := WorkerOutcome.ok
        { accessToken := "AT", refreshToken := some "RT", idToken := some "IDT"
          scopes := some ["email"], expiresIn := some 3600 }
      now := 1000 }
    { clientId := "id", clientSecret := some "sec", scopes := some ["email"]
      hostedDomain := none, loginHint := none, redirectUri := none
      successHtmlResponse := none, flowType := none }
    ["email"] "localhost" none "sec" 49152
    { scheme := "http", host := some "localhost", port := some 49152
      path := "", query := none }
    "abc123" "xyz"
    { accessToken := "AT", refreshToken := some "RT", idToken := some "IDT"
      scopes := some ["email"], expiresIn := some 3600 }
    { csrfToken := "csrf1", pkceChallenge := "ch", pkceVerifier := "v"
      bind := fun p => Except.ok (if p = 0 then 49152 else p)
      openBrowser := Except.ok (), connectionAccepted := true
      readLine := Except.ok ("GET /?code=" ++ "abc123" ++ " HTTP/1.1\r\n")
      writeAll := Except.ok ()
      exchange := WorkerOutcome.ok
        { accessToken := "AT", refreshToken := some "RT", idToken := some "IDT"
          scopes := some ["email"], expiresIn := some 3600 }
      now := 1000 }
    { clientId := "id", clientSecret := some "sec", scopes := some ["email"]
      hostedDomain := none, loginHint := none, redirectUri := none
      successHtmlResponse := none, flowType := none }
    ["email"] "localhost" none "sec" 49152
    { scheme := "http", host := some "localhost", port := some 49152
      path := "", query := none }
    "abc123"
    (by decide) (by decide) (by decide) (by decide) (by decide) rfl rfl rfl
    (by decide) (by decide) (by decide) rfl rfl
    (by decide) (by decide) (by decide) (by decide) (by decide) rfl rfl rfl (by decide)

/-- C3: a redirect whose query lacks the code parameter makes the flow
fail with an authentication error; one lacking the state parameter makes
it fail with an authentication error; one carrying both yields exactly
the literal code and state values of the query string. -/
theorem c3_redirect_params
    (env1 : SignInEnv) (p1 : SignInRequest) (scopes1 : List String) (host1 : String)
    (port1 : Option Nat) (sec1 : String) (ap1 : Nat) (u1 : UrlParts)
    (line1 path1 : String) (q1 : UrlParts)
    (env2 : SignInEnv) (p2 : SignInRequest) (scopes2 : List String) (host2 : String)
    (port2 : Option Nat) (sec2 : String) (ap2 : Nat) (u2 : UrlParts)
    (line2 path2 : String) (q2 : UrlParts) (cp2 : String × String)
    (c s m : String)
    (hs1 : validateScopes p1.scopes = Except.ok scopes1)
    (hr1 : parseRedirectHostPort p1.redirectUri = Except.ok (host1, port1))
    (hsec1 : requireClientSecret p1.clientSecret = Except.ok sec1)
    (hb1 : bindListener env1.bind port1 = Except.ok ap1)
    (hu1 : parseUrl ("http://" ++ host1 ++ ":" ++ toString ap1) = Except.ok u1)
    (hob1 : env1.openBrowser = Except.ok ())
    (hconn1 : env1.connectionAccepted = true)
    (hline1 : env1.readLine = Except.ok line1)
    (hp1 : (splitWhitespaceModel line1).get? 1 = some path1)
    (hq1 : parseUrl ("http://" ++ DEFAULT_REDIRECT_HOST ++ path1) = Except.ok q1)
    (hfc1 : (urlQueryPairs q1).find? (fun kv => kv.1 == "code") = none)
    (hs2 : validateScopes p2.scopes = Except.ok scopes2)
    (hr2 : parseRedirectHostPort p2.redirectUri = Except.ok (host2, port2))
    (hsec2 : requireClientSecret p2.clientSecret = Except.ok sec2)
    (hb2 : bindListener env2.bind port2 = Except.ok ap2)
    (hu2 : parseUrl ("http://" ++ host2 ++ ":" ++ toString ap2) = Except.ok u2)
    (hob2 : env2.openBrowser = Except.ok ())
    (hconn2 : env2.connectionAccepted = true)
    (hline2 : env2.readLine = Except.ok line2)
    (hp2 : (splitWhitespaceModel line2).get? 1 = some path2)
    (hq2 : parseUrl ("http://" ++ DEFAULT_REDIRECT_HOST ++ path2) = Except.ok q2)
    (hfc2 : (urlQueryPairs q2).find? (fun kv => kv.1 == "code") = some cp2)
    (hfs2 : (urlQueryPairs q2).find? (fun kv => kv.1 == "state") = none)
    (hc : PlainToken c) (hsP : PlainToken s) :
    (signIn env1 p1).1
      = Except.error (Error.AuthenticationFailed "Authorization code not found in response")
    ∧ (signIn env2 p2).1
      = Except.error (Error.AuthenticationFailed "State parameter not found in response")
    ∧ processRedirect true
        (Except.ok ("GET /?code=" ++ c ++ "&state=" ++ s ++ " HTTP/1.1\r\n"))
        (Except.ok ()) m
      = (Except.ok (c, s), [Event.accept, Event.writeResponse (mkSuccessResponse m)]) := by
  refine ⟨?_, ?_, processRedirect_literal c s m (Except.ok ()) hc hsP rfl⟩
  · have hpr : processRedirect env1.connectionAccepted env1.readLine env1.writeAll
        (p1.successHtmlResponse.getD SUCCESS_HTML_RESPONSE)
        = (Except.error (Error.AuthenticationFailed "Authorization code not found in response"),
           [Event.accept]) := by
      rw [hconn1, hline1]
      exact processRedirect_missing_code line1 path1 q1 env1.writeAll _ hp1 hq1 hfc1
    rw [signIn_redirect_error_result env1 p1 scopes1 host1 port1 sec1 ap1 u1 _ _
        hs1 hr1 hsec1 hb1 hu1 hob1 hpr]
  · have hpr : processRedirect env2.connectionAccepted env2.readLine env2.writeAll
        (p2.successHtmlResponse.getD SUCCESS_HTML_RESPONSE)
        = (Except.error (Error.AuthenticationFailed "State parameter not found in response"),
           [Event.accept]) := by
      rw [hconn2, hline2]
      exact processRedirect_missing_state line2 path2 q2 cp2 env2.writeAll _ hp2 hq2 hfc2 hfs2
    rw [signIn_redirect_error_result env2 p2 scopes2 host2 port2 sec2 ap2 u2 _ _
        hs2 hr2 hsec2 hb2 hu2 hob2 hpr]

/-- C3 witness at concrete inputs, including the literal extraction of
code abc123 and state xyz from the query string. -/
theorem c3_redirect_params_witness :
    (signIn
        { csrfToken := "c", pkceChallenge := "ch", pkceVerifier := "v"
          bind := fun p => Except.ok (if p = 0 then 49152 else p)
          openBrowser := Except.ok (), connectionAccepted := true
          readLine := Except.ok "GET /?state=xyz HTTP/1.1\r\n"
          writeAll := Except.ok (), exchange := WorkerOutcome.panicked, now := 0 }
        { clientId := "id", clientSecret := some "sec", scopes := some ["email"]
          hostedDomain := none, loginHint := none, redirectUri := none
          successHtmlResponse := none, flowType := none }).1
      = Except.error (Error.AuthenticationFailed "Authorization code not found in response")
    ∧ (signIn
        { csrfToken := "c", pkceChallenge := "ch", pkceVerifier := "v"
          bind := fun p => Except.ok (if p = 0 then 49152 else p)
          openBrowser := Except.ok (), connectionAccepted := true
          readLine := Except.ok "GET /?code=abc123 HTTP/1.1\r\n"
          writeAll := Except.ok (), exchange := WorkerOutcome.panicked, now := 0 }
        { clientId := "id", clientSecret := some "sec", scopes := some ["email"]
          hostedDomain := none, loginHint := none, redirectUri := none
          successHtmlResponse := none, flowType := none }).1
      = Except.error (Error.AuthenticationFailed "State parameter not found in response")
    ∧ processRedirect true
        (Except.ok ("GET /?code=" ++ "abc123" ++ "&state=" ++ "xyz" ++ " HTTP/1.1\r\n"))
        (Except.ok ()) "done"
      = (Except.ok ("abc123", "xyz"),
         [Event.accept, Event.writeResponse (mkSuccessResponse "done")]) :=
  c3_redirect_params
    { csrfToken := "c", pkceChallenge := "ch", pkceVerifier := "v"
      bind := fun p => Except.ok (if p = 0 then 49152 else p)
      openBrowser := Except.ok (), connectionAccepted := true
      readLine := Except.ok "GET /?state=xyz HTTP/1.1\r\n"
      writeAll := Except.ok (), exchange := WorkerOutcome.panicked, now := 0 }
    { clientId := "id", clientSecret := some "sec", scopes := some ["email"]
      hostedDomain := none, loginHint := none, redirectUri := none
      successHtmlResponse := none, flowType := none }
    ["email"] "localhost" none "sec" 49152
    { scheme := "http", host := some "localhost", port := some 49152
      path := "", query := none }
    "GET /?state=xyz HTTP/1.1\r\n" "/?state=xyz" (localhostQueryParts "state=xyz")
    { csrfToken := "c", pkceChallenge := "ch", pkceVerifier := "v"
      bind := fun p => Except.ok (if p = 0 then 49152 else p)
      openBrowser := Except.ok (), connectionAccepted := true
      readLine := Except.ok "GET /?code=abc123 HTTP/1.1\r\n"
      writeAll := Except.ok (), exchange := WorkerOutcome.panicked, now := 0 }
    { clientId := "id", clientSecret := some "sec", scopes := some ["email"]
      hostedDomain := none, loginHint := none, redirectUri := none
      successHtmlResponse := none, flowType := none }
    ["email"] "localhost" none "sec" 49152
    { scheme := "http", host := some "localhost", port := some 49152
      path := "", query := none }
    "GET /?code=abc123 HTTP/1.1\r\n" "/?code=abc123" (localhostQueryParts "code=abc123")
    ("code", "abc123")
    "abc123" "xyz" "done"
    (by decide) (by decide) (by decide) (by decide) (by decide) rfl rfl rfl
    (by decide) (by decide) (by decide)
    (by decide) (by decide) (by decide) (by decide) (by decide) rfl rfl rfl
    (by decide) (by decide) (by decide) (by decide)
    (by decide) (by decide)

/-- C10: when the redirect lacks the code or the state parameter,
sign_in returns its error without writing any response bytes to the
connection; when both are present, the 200 OK response with the
content-length header and the configured body is written. -/
theorem c10_response_written_iff_params
    (env1 : SignInEnv) (p1 : SignInRequest) (scopes1 : List String) (host1 : String)
    (port1 : Option Nat) (sec1 : String) (ap1 : Nat) (u1 : UrlParts)
    (line1 path1 : String) (q1 : UrlParts)
    (env2 : SignInEnv) (p2 : SignInRequest) (scopes2 : List String) (host2 : String)
    (port2 : Option Nat) (sec2 : String) (ap2 : Nat) (u2 : UrlParts)
    (line2 path2 : String) (q2 : UrlParts) (cp2 : String × String)
    (env3 : SignInEnv) (p3 : SignInRequest) (scopes3 : List String) (host3 : String)
    (port3 : Option Nat) (sec3 : String) (ap3 : Nat) (u3 : UrlParts)
    (line3 path3 : String) (q3 : UrlParts) (cp3 sp3 : String × String)
    (hs1 : validateScopes p1.scopes = Except.ok scopes1)
    (hr1 : parseRedirectHostPort p1.redirectUri = Except.ok (host1, port1))
    (hsec1 : requireClientSecret p1.clientSecret = Except.ok sec1)
    (hb1 : bindListener env1.bind port1 = Except.ok ap1)
    (hu1 : parseUrl ("http://" ++ host1 ++ ":" ++ toString ap1) = Except.ok u1)
    (hob1 : env1.openBrowser = Except.ok ())
    (hconn1 : env1.connectionAccepted = true)
    (hline1 : env1.readLine = Except.ok line1)
    (hp1 : (splitWhitespaceModel line1).get? 1 = some path1)
    (hq1 : parseUrl ("http://" ++ DEFAULT_REDIRECT_HOST ++ path1) = Except.ok q1)
    (hfc1 : (urlQueryPairs q1).find? (fun kv => kv.1 == "code") = none)
    (hs2 : validateScopes p2.scopes = Except.ok scopes2)
    (hr2 : parseRedirectHostPort p2.redirectUri = Except.ok (host2, port2))
    (hsec2 : requireClientSecret p2.clientSecret = Except.ok sec2)
    (hb2 : bindListener env2.bind port2 = Except.ok ap2)
    (hu2 : parseUrl ("http://" ++ host2 ++ ":" ++ toString ap2) = Except.ok u2)
    (hob2 : env2.openBrowser = Except.ok ())
    (hconn2 : env2.connectionAccepted = true)
    (hline2 : env2.readLine = Except.ok line2)
    (hp2 : (splitWhitespaceModel line2).get? 1 = some path2)
    (hq2 : parseUrl ("http://" ++ DEFAULT_REDIRECT_HOST ++ path2) = Except.ok q2)
    (hfc2 : (urlQueryPairs q2).find? (fun kv => kv.1 == "code") = some cp2)
    (hfs2 : (urlQueryPairs q2).find? (fun kv => kv.1 == "state") = none)
    (hs3 : validateScopes p3.scopes = Except.ok scopes3)
    (hr3 : parseRedirectHostPort p3.redirectUri = Except.ok (host3, port3))
    (hsec3 : requireClientSecret p3.clientSecret = Except.ok sec3)
    (hb3 : bindListener env3.bind port3 = Except.ok ap3)
    (hu3 : parseUrl ("http://" ++ host3 ++ ":" ++ toString ap3) = Except.ok u3)
    (hob3 : env3.openBrowser = Except.ok ())
    (hconn3 : env3.connectionAccepted = true)
    (hline3 : env3.readLine = Except.ok line3)
    (hp3 : (splitWhitespaceModel line3).get? 1 = some path3)
    (hq3 : parseUrl ("http://" ++ DEFAULT_REDIRECT_HOST ++ path3) = Except.ok q3)
    (hfc3 : (urlQueryPairs q3).find? (fun kv => kv.1 == "code") = some cp3)
    (hfs3 : (urlQueryPairs q3).find? (fun kv => kv.1 == "state") = some sp3)
    (hw3 : env3.writeAll = Except.ok ()) :
    ((signIn env1 p1).1
        = Except.error (Error.AuthenticationFailed "Authorization code not found in response")
      ∧ ∀ b, Event.writeResponse b ∉ (signIn env1 p1).2)
    ∧ ((signIn env2 p2).1
        = Except.error (Error.AuthenticationFailed "State parameter not found in response")
      ∧ ∀ b, Event.writeResponse b ∉ (signIn env2 p2).2)
    ∧ Event.writeResponse
        (mkSuccessResponse (p3.successHtmlResponse.getD SUCCESS_HTML_RESPONSE))
        ∈ (signIn env3 p3).2 := by
  refine ⟨?_, ?_, ?_⟩
  · have hpr : processRedirect env1.connectionAccepted env1.readLine env1.writeAll
        (p1.successHtmlResponse.getD SUCCESS_HTML_RESPONSE)
        = (Except.error (Error.AuthenticationFailed "Authorization code not found in response"),
           [Event.accept]) := by
      rw [hconn1, hline1]
      exact processRedirect_missing_code line1 path1 q1 env1.writeAll _ hp1 hq1 hfc1
    rw [signIn_redirect_error_result env1 p1 scopes1 host1 port1 sec1 ap1 u1 _ _
        hs1 hr1 hsec1 hb1 hu1 hob1 hpr]
    exact ⟨rfl, fun b => by simp⟩
  · have hpr : processRedirect env2.connectionAccepted env2.readLine env2.writeAll
        (p2.successHtmlResponse.getD SUCCESS_HTML_RESPONSE)
        = (Except.error (Error.AuthenticationFailed "State parameter not found in response"),
           [Event.accept]) := by
      rw [hconn2, hline2]
      exact processRedirect_missing_state line2 path2 q2 cp2 env2.writeAll _ hp2 hq2 hfc2 hfs2
    rw [signIn_redirect_error_result env2 p2 scopes2 host2 port2 sec2 ap2 u2 _ _
        hs2 hr2 hsec2 hb2 hu2 hob2 hpr]
    exact ⟨rfl, fun b => by simp⟩
  · have hpr : processRedirect env3.connectionAccepted env3.readLine env3.writeAll
        (p3.successHtmlResponse.getD SUCCESS_HTML_RESPONSE)
        = (Except.ok (cp3.2, sp3.2),
           [Event.accept, Event.writeResponse
              (mkSuccessResponse (p3.successHtmlResponse.getD SUCCESS_HTML_RESPONSE))]) := by
      rw [hconn3, hline3]
      exact processRedirect_found line3 path3 q3 cp3 sp3 env3.writeAll _ hp3 hq3 hfc3 hfs3 hw3
    rw [signIn_exchange_result env3 p3 scopes3 host3 port3 sec3 ap3 u3 (cp3.2, sp3.2) _
        hs3 hr3 hsec3 hb3 hu3 hob3 hpr]
    simp

/-- C10 witness at concrete inputs. -/
theorem c10_response_written_iff_params_witness :
    ((signIn
        { csrfToken := "c", pkceChallenge := "ch", pkceVerifier := "v"
          bind := fun p => Except.ok (if p = 0 then 49152 else p)
          openBrowser := Except.ok (), connectionAccepted := true
          readLine := Except.ok "GET /?state=xyz HTTP/1.1\r\n"
          writeAll := Except.ok (), exchange := WorkerOutcome.panicked, now := 0 }
        { clientId := "id", clientSecret := some "sec", scopes := some ["email"]
          hostedDomain := none, loginHint := none, redirectUri := none
          successHtmlResponse := none, flowType := none }).1
      = Except.error (Error.AuthenticationFailed "Authorization code not found in response")
      ∧ ∀ b, Event.writeResponse b ∉ (signIn
        { csrfToken := "c", pkceChallenge := "ch", pkceVerifier := "v"
          bind := fun p => Except.ok (if p = 0 then 49152 else p)
          openBrowser := Except.ok (), connectionAccepted := true
          readLine := Except.ok "GET /?state=xyz HTTP/1.1\r\n"
          writeAll := Except.ok (), exchange := WorkerOutcome.panicked, now := 0 }
        { clientId := "id", clientSecret := some "sec", scopes := some ["email"]
          hostedDomain := none, loginHint := none, redirectUri := none
          successHtmlResponse := none, flowType := none }).2)
    ∧ ((signIn
        { csrfToken := "c", pkceChallenge := "ch", pkceVerifier := "v"
          bind := fun p => Except.ok (if p = 0 then 49152 else p)
          openBrowser := Except.ok (), connectionAccepted := true
          readLine := Except.ok "GET /?code=abc123 HTTP/1.1\r\n"
          writeAll := Except.ok (), exchange := WorkerOutcome.panicked, now := 0 }
        { clientId := "id", clientSecret := some "sec", scopes := some ["email"]
          hostedDomain := none, loginHint := none, redirectUri := none
          successHtmlResponse := none, flowType := none }).1
      = Except.error (Error.AuthenticationFailed "State parameter not found in response")
      ∧ ∀ b, Event.writeResponse b ∉ (signIn
        { csrfToken := "c", pkceChallenge := "ch", pkceVerifier := "v"
          bind := fun p => Except.ok (if p = 0 then 49152 else p)
          openBrowser := Except.ok (), connectionAccepted := true
          readLine := Except.ok "GET /?code=abc123 HTTP/1.1\r\n"
          writeAll := Except.ok (), exchange := WorkerOutcome.panicked, now := 0 }
        { clientId := "id", clientSecret := some "sec", scopes := some ["email"]
          hostedDomain := none, loginHint := none, redirectUri := none
          successHtmlResponse := none, flowType := none }).2)
    ∧ Event.writeResponse
        (mkSuccessResponse ((some "All done!").getD SUCCESS_HTML_RESPONSE))
        ∈ (signIn
        { csrfToken := "c", pkceChallenge := "ch", pkceVerifier := "v"
          bind := fun p => Except.ok (if p = 0 then 49152 else p)
          openBrowser := Except.ok (), connectionAccepted := true
          readLine := Except.ok "GET /?code=abc123&state=xyz HTTP/1.1\r\n"
          writeAll := Except.ok (), exchange := WorkerOutcome.panicked, now := 0 }
        { clientId := "id", clientSecret := some "sec", scopes := some ["email"]
          hostedDomain := none, loginHint := none, redirectUri := none
          successHtmlResponse := some "All done!", flowType := none }).2 :=
  c10_response_written_iff_params
    { csrfToken := "c", pkceChallenge := "ch", pkceVerifier := "v"
      bind := fun p => Except.ok (if p = 0 then 49152 else p)
      openBrowser := Except.ok (), connectionAccepted := true
      readLine := Except.ok "GET /?state=xyz HTTP/1.1\r\n"
      writeAll := Except.ok (), exchange := WorkerOutcome.panicked, now := 0 }
    { clientId := "id", clientSecret := some "sec", scopes := some ["email"]
      hostedDomain := none, loginHint := none, redirectUri := none
      successHtmlResponse := none, flowType := none }
    ["email"] "localhost" none "sec" 49152
    { scheme := "http", host := some "localhost", port := some 49152
      path := "", query := none }
    "GET /?state=xyz HTTP/1.1\r\n" "/?state=xyz" (localhostQueryParts "state=xyz")
    { csrfToken := "c", pkceChallenge := "ch", pkceVerifier := "v"
      bind := fun p => Except.ok (if p = 0 then 49152 else p)
      openBrowser := Except.ok (), connectionAccepted := true
      readLine := Except.ok "GET /?code=abc123 HTTP/1.1\r\n"
      writeAll := Except.ok (), exchange := WorkerOutcome.panicked, now := 0 }
    { clientId := "id", clientSecret := some "sec", scopes := some ["email"]
      hostedDomain := none, loginHint := none, redirectUri := none
      successHtmlResponse := none, flowType := none }
    ["email"] "localhost" none "sec" 49152
    { scheme := "http", host := some "localhost", port := some 49152
      path := "", query := none }
    "GET /?code=abc123 HTTP/1.1\r\n" "/?code=abc123" (localhostQueryParts "code=abc123")
    ("code", "abc123")
    { csrfToken := "c", pkceChallenge := "ch", pkceVerifier := "v"
      bind := fun p => Except.ok (if p = 0 then 49152 else p)
      openBrowser := Except.ok (), connectionAccepted := true
      readLine := Except.ok "GET /?code=abc123&state=xyz HTTP/1.1\r\n"
      writeAll := Except.ok (), exchange := WorkerOutcome.panicked, now := 0 }
    { clientId := "id", clientSecret := some "sec", scopes := some ["email"]
      hostedDomain := none, loginHint := none, redirectUri := none
      successHtmlResponse := some "All done!", flowType := none }
    ["email"] "localhost" none "sec" 49152
    { scheme := "http", host := some "localhost", port := some 49152
      path := "", query := none }
    "GET /?code=abc123&state=xyz HTTP/1.1\r\n" "/?code=abc123&state=xyz"
    (localhostQueryParts "code=abc123&state=xyz")
    ("code", "abc123") ("state", "xyz")
    (by decide) (by decide) (by decide) (by decide) (by decide) rfl rfl rfl
    (by decide) (by decide) (by decide)
    (by decide) (by decide) (by decide) (by decide) (by decide) rfl rfl rfl
    (by decide) (by decide) (by decide) (by decide)
    (by decide) (by decide) (by decide) (by decide) (by decide) rfl rfl rfl
    (by decide) (by decide) (by decide) (by decide) rfl

/-- C9 counterexample: the request line GET /?code=abc123&state=xyz with
no HTTP version token cannot be split into method, path and version
tokens, yet the flow does not fail with a protocol error: it proceeds to
query extraction and completes the exchange. -/
theorem c9_counterexample :
    (splitWhitespaceModel "GET /?code=abc123&state=xyz\r\n").length = 2
    ∧ (signIn
        { csrfToken := "c", pkceChallenge := "ch", pkceVerifier := "v"
          bind := fun p => Except.ok (if p = 0 then 49152 else p)
          openBrowser := Except.ok (), connectionAccepted := true
          readLine := Except.ok "GET /?code=abc123&state=xyz\r\n"
          writeAll := Except.ok ()
          exchange := WorkerOutcome.ok
            { accessToken := "AT", refreshToken := some "RT", idToken := some "IDT"
              scopes := some ["email"], expiresIn := some 3600 }
          now := 1000 }
        { clientId := "id", clientSecret := some "sec", scopes := some ["email"]
          hostedDomain := none, loginHint := none, redirectUri := none
          successHtmlResponse := none, flowType := none }).1
      = Except.ok { idToken := some "IDT", accessToken := "AT", scopes := ["email"]
                    refreshToken := some "RT", expiresAt := some 4600 } :=
  ⟨by decide, by decide⟩

/-- C9 amended: the listener fails with the protocol-format error when
the request line has no second whitespace-separated token, and then no
response bytes are written; a line carrying a method and a path but no
version token proceeds to query extraction. -/
theorem c9_amended (env : SignInEnv) (p : SignInRequest) (scopes : List String)
    (host : String) (port : Option Nat) (sec : String) (ap : Nat) (u : UrlParts)
    (line : String)
    (hs : validateScopes p.scopes = Except.ok scopes)
    (hr : parseRedirectHostPort p.redirectUri = Except.ok (host, port))
    (hsec : requireClientSecret p.clientSecret = Except.ok sec)
    (hb : bindListener env.bind port = Except.ok ap)
    (hu : parseUrl ("http://" ++ host ++ ":" ++ toString ap) = Except.ok u)
    (hob : env.openBrowser = Except.ok ())
    (hconn : env.connectionAccepted = true)
    (hline : env.readLine = Except.ok line)
    (hp : (splitWhitespaceModel line).get? 1 = none) :
    (signIn env p).1 = Except.error (Error.NetworkError "Invalid HTTP request format")
    ∧ ∀ b, Event.writeResponse b ∉ (signIn env p).2 := by
  have hpr : processRedirect env.connectionAccepted env.readLine env.writeAll
      (p.successHtmlResponse.getD SUCCESS_HTML_RESPONSE)
      = (Except.error (Error.NetworkError "Invalid HTTP request format"),
         [Event.accept]) := by
    rw [hconn, hline]
    exact processRedirect_no_path line env.writeAll _ hp
  rw [signIn_redirect_error_result env p scopes host port sec ap u _ _
      hs hr hsec hb hu hob hpr]
  exact ⟨rfl, fun b => by simp⟩

/-- C9 amended witness at a concrete input: a request line with a single
token. -/
theorem c9_amended_witness :
    (signIn
        { csrfToken := "c", pkceChallenge := "ch", pkceVerifier := "v"
          bind := fun p => Except.ok (if p = 0 then 49152 else p)
          openBrowser := Except.ok (), connectionAccepted := true
          readLine := Except.ok "GET\r\n"
          writeAll := Except.ok (), exchange := WorkerOutcome.panicked, now := 0 }
        { clientId := "id", clientSecret := some "sec", scopes := some ["email"]
          hostedDomain := none, loginHint := none, redirectUri := none
          successHtmlResponse := none, flowType := none }).1
      = Except.error (Error.NetworkError "Invalid HTTP request format")
    ∧ ∀ b, Event.writeResponse b ∉ (signIn
        { csrfToken := "c", pkceChallenge := "ch", pkceVerifier := "v"
          bind := fun p => Except.ok (if p = 0 then 49152 else p)
          openBrowser := Except.ok (), connectionAccepted := true
          readLine := Except.ok "GET\r\n"
          writeAll := Except.ok (), exchange := WorkerOutcome.panicked, now := 0 }
        { clientId := "id", clientSecret := some "sec", scopes := some ["email"]
          hostedDomain := none, loginHint := none, redirectUri := none
          successHtmlResponse := none, flowType := none }).2 :=
  c9_amended
    { csrfToken := "c", pkceChallenge := "ch", pkceVerifier := "v"
      bind := fun p => Except.ok (if p = 0 then 49152 else p)
      openBrowser := Except.ok (), connectionAccepted := true
      readLine := Except.ok "GET\r\n"
      writeAll := Except.ok (), exchange := WorkerOutcome.panicked, now := 0 }
    { clientId := "id", clientSecret := some "sec", scopes := some ["email"]
      hostedDomain := none, loginHint := none, redirectUri := none
      successHtmlResponse := none, flowType := none }
    ["email"] "localhost" none "sec" 49152
    { scheme := "http", host := some "localhost", port := some 49152
      path := "", query := none }
    "GET\r\n"
    (by decide) (by decide) (by decide) (by decide) (by decide) rfl rfl rfl (by decide)

/-- The two's-complement interpretation is the identity on the
nonnegative signed range. -/
theorem toI64_of_small {z : Int} (h0 : 0 ≤ z) (h : z < 2 ^ 63) : toI64 z = z := by
  have hlt : z < (2 : Int) ^ 64 := lt_trans h (by norm_num)
  simp only [toI64]
  rw [Int.emod_eq_of_lt h0 hlt, if_pos h]

/-- On in-range inputs, the wrapped expiry computation collapses to the
plain sum. -/
theorem wrappedExpiry_of_small (n : Nat) (o : Option Nat)
    (hn : (n : Int) < 2 ^ 63)
    (ho : ∀ d ∈ o, (d : Int) < 2 ^ 63 ∧ (n : Int) + (d : Int) < 2 ^ 63) :
    o.map (fun (d : Nat) => toI64 (toI64 (n : Int) + toI64 (d : Int)))
      = o.map (fun (d : Nat) => (n : Int) + (d : Int)) := by
  cases o with
  | none => simp only [Option.map_none']
  | some d =>
    have hmem : d ∈ (some d : Option Nat) := Option.mem_some_iff.mpr rfl
    rcases ho d hmem with ⟨hd1, hd2⟩
    have h1 : toI64 (n : Int) = n := toI64_of_small (Int.natCast_nonneg n) hn
    have h2 : toI64 (d : Int) = d := toI64_of_small (Int.natCast_nonneg d) hd1
    have h3 : toI64 ((n : Int) + (d : Int)) = (n : Int) + (d : Int) :=
      toI64_of_small (add_nonneg (Int.natCast_nonneg n) (Int.natCast_nonneg d)) hd2
    simp only [Option.map_some', h1, h2, h3]

/-- C7 counterexample: a refresh whose provider response carries an
expires_in of 2^63 seconds completes successfully, but the returned
expires_at is the wrapped value 1000 - 2^63, not the claimed sum
1000 + 2^63: the u64 to i64 cast of expires_in wraps. -/
theorem c7_counterexample :
    (refreshToken
        { exchange := WorkerOutcome.ok
            { accessToken := "AT", refreshToken := none, idToken := none
              scopes := none, expiresIn := some (2 ^ 63) }
          now := 1000 }
        { refreshToken := some "rt", clientId := "id", clientSecret := some "sec"
          scopes := none, flowType := none }).1
      = Except.ok { idToken := none, accessToken := "AT", scopes := []
                    refreshToken := none, expiresAt := some (1000 - 2 ^ 63) }
    ∧ (1000 - 2 ^ 63 : Int) ≠ 1000 + 2 ^ 63 := by
  refine ⟨by decide, by decide⟩

/-- C7 amended: for every successful token exchange or refresh whose
provider response carries expires_in, the returned expires_at is the
64-bit wrapped sum of the capture time and expires_in; whenever
expires_in and the sum lie below 2^63 (every realistic value, such as
3600), this equals the wall-clock time read at response receipt plus
the expires_in duration; when the response carries no expires_in,
expires_at is absent. -/
theorem c7_amended (env : SignInEnv) (p : SignInRequest) (scopes : List String)
    (host : String) (port : Option Nat) (sec : String) (ap : Nat) (u : UrlParts)
    (line path : String) (u2 : UrlParts) (cp sp : String × String)
    (tr : ProviderTokenResponse)
    (envR : RefreshEnv) (pR : RefreshTokenRequest) (secR : String)
    (trR : ProviderTokenResponse)
    (hs : validateScopes p.scopes = Except.ok scopes)
    (hr : parseRedirectHostPort p.redirectUri = Except.ok (host, port))
    (hsec : requireClientSecret p.clientSecret = Except.ok sec)
    (hb : bindListener env.bind port = Except.ok ap)
    (hu : parseUrl ("http://" ++ host ++ ":" ++ toString ap) = Except.ok u)
    (hob : env.openBrowser = Except.ok ())
    (hconn : env.connectionAccepted = true)
    (hline : env.readLine = Except.ok line)
    (hp : (splitWhitespaceModel line).get? 1 = some path)
    (hu2 : parseUrl ("http://" ++ DEFAULT_REDIRECT_HOST ++ path) = Except.ok u2)
    (hfc : (urlQueryPairs u2).find? (fun kv => kv.1 == "code") = some cp)
    (hfs : (urlQueryPairs u2).find? (fun kv => kv.1 == "state") = some sp)
    (hw : env.writeAll = Except.ok ())
    (hx : env.exchange = WorkerOutcome.ok tr)
    (hsecR : requireClientSecret pR.clientSecret = Except.ok secR)
    (hxR : envR.exchange = WorkerOutcome.ok trR)
    (hnowS : (env.now : Int) < 2 ^ 63)
    (hdS : ∀ d ∈ tr.expiresIn, (d : Int) < 2 ^ 63 ∧ (env.now : Int) + (d : Int) < 2 ^ 63)
    (hnowR : (envR.now : Int) < 2 ^ 63)
    (hdR : ∀ d ∈ trR.expiresIn,
      (d : Int) < 2 ^ 63 ∧ (envR.now : Int) + (d : Int) < 2 ^ 63) :
    (∃ t, (signIn env p).1 = Except.ok t
      ∧ t.expiresAt
          = tr.expiresIn.map (fun (d : Nat) => toI64 (toI64 (env.now : Int) + toI64 (d : Int)))
      ∧ t.expiresAt = tr.expiresIn.map (fun (d : Nat) => (env.now : Int) + (d : Int)))
    ∧ (∃ t, (refreshToken envR pR).1 = Except.ok t
      ∧ t.expiresAt
          = trR.expiresIn.map (fun (d : Nat) => toI64 (toI64 (envR.now : Int) + toI64 (d : Int)))
      ∧ t.expiresAt = trR.expiresIn.map (fun (d : Nat) => (envR.now : Int) + (d : Int))) := by
  have hT : checkEndpointUrl GOOGLE_TOKEN_URL "Invalid token endpoint URL"
      = Except.ok { scheme := "https", host := some "oauth2.googleapis.com", port := none,
                    path := "/token", query := none } := by decide
  have hpr : processRedirect env.connectionAccepted env.readLine env.writeAll
      (p.successHtmlResponse.getD SUCCESS_HTML_RESPONSE)
      = (Except.ok (cp.2, sp.2),
         [Event.accept, Event.writeResponse
            (mkSuccessResponse (p.successHtmlResponse.getD SUCCESS_HTML_RESPONSE))]) := by
    rw [hconn, hline]
    exact processRedirect_found line path u2 cp sp env.writeAll _ hp hu2 hfc hfs hw
  refine ⟨⟨normalizeTokenResponse env.now tr, ?_, ?_, ?_⟩,
    ⟨normalizeTokenResponse envR.now trR, ?_, ?_, ?_⟩⟩
  · rw [signIn_exchange_result env p scopes host port sec ap u (cp.2, sp.2) _
        hs hr hsec hb hu hob hpr]
    simp [exchangeCode, hx]
  · simp [normalizeTokenResponse]
  · simp only [normalizeTokenResponse]
    exact wrappedExpiry_of_small env.now tr.expiresIn hnowS hdS
  · simp [refreshToken, hsecR, hT, hxR]
  · simp [normalizeTokenResponse]
  · simp only [normalizeTokenResponse]
    exact wrappedExpiry_of_small envR.now trR.expiresIn hnowR hdR

/-- C7 amended witness at concrete inputs: expires_in 3600 at time 1000
yields expires_at 4600, and an absent expires_in yields an absent
expires_at. -/
theorem c7_amended_witness :
    (∃ t, (signIn
        { csrfToken := "c", pkceChallenge := "ch", pkceVerifier := "v"
          bind := fun p => Except.ok (if p = 0 then 49152 else p)
          openBrowser := Except.ok (), connectionAccepted := true
          readLine := Except.ok "GET /?code=abc123&state=xyz HTTP/1.1\r\n"
          writeAll := Except.ok ()
          exchange := WorkerOutcome.ok
            { accessToken := "AT", refreshToken := some "RT", idToken := some "IDT"
              scopes := some ["email"], expiresIn := some 3600 }
          now := 1000 }
        { clientId := "id", clientSecret := some "sec", scopes := some ["email"]
          hostedDomain := none, loginHint := none, redirectUri := none
          successHtmlResponse := none, flowType := none }).1 = Except.ok t
      ∧ t.expiresAt
          = (some 3600).map (fun (d : Nat) => toI64 (toI64 ((1000 : Nat) : Int) + toI64 (d : Int)))
      ∧ t.expiresAt = (some 3600).map (fun (d : Nat) => ((1000 : Nat) : Int) + (d : Int)))
    ∧ (∃ t, (refreshToken
        { exchange := WorkerOutcome.ok
            { accessToken := "AT2", refreshToken := none, idToken := none
              scopes := none, expiresIn := none }
          now := 5 }
        { refreshToken := some "rt", clientId := "id", clientSecret := some "sec"
          scopes := none, flowType := none }).1 = Except.ok t
      ∧ t.expiresAt
          = (none : Option Nat).map (fun (d : Nat) => toI64 (toI64 ((5 : Nat) : Int) + toI64 (d : Int)))
      ∧ t.expiresAt = (none : Option Nat).map (fun (d : Nat) => ((5 : Nat) : Int) + (d : Int))) :=
  c7_amended
    { csrfToken := "c", pkceChallenge := "ch", pkceVerifier := "v"
      bind := fun p => Except.ok (if p = 0 then 49152 else p)
      openBrowser := Except.ok (), connectionAccepted := true
      readLine := Except.ok "GET /?code=abc123&state=xyz HTTP/1.1\r\n"
      writeAll := Except.ok ()
      exchange := WorkerOutcome.ok
        { accessToken := "AT", refreshToken := some "RT", idToken := some "IDT"
          scopes := some ["email"], expiresIn := some 3600 }
      now := 1000 }
    { clientId := "id", clientSecret := some "sec", scopes := some ["email"]
      hostedDomain := none, loginHint := none, redirectUri := none
      successHtmlResponse := none, flowType := none }
    ["email"] "localhost" none "sec" 49152
    { scheme := "http", host := some "localhost", port := some 49152
      path := "", query := none }
    "GET /?code=abc123&state=xyz HTTP/1.1\r\n" "/?code=abc123&state=xyz"
    (localhostQueryParts "code=abc123&state=xyz")
    ("code", "abc123") ("state", "xyz")
    { accessToken := "AT", refreshToken := some "RT", idToken := some "IDT"
      scopes := some ["email"], expiresIn := some 3600 }
    { exchange := WorkerOutcome.ok
        { accessToken := "AT2", refreshToken := none, idToken := none
          scopes := none, expiresIn := none }
      now := 5 }
    { refreshToken := some "rt", clientId := "id", clientSecret := some "sec"
      scopes := none, flowType := none }
    "sec"
    { accessToken := "AT2", refreshToken := none, idToken := none
      scopes := none, expiresIn := none }
    (by decide) (by decide) (by decide) (by decide) (by decide) rfl rfl rfl
    (by decide) (by decide) (by decide) (by decide) rfl rfl (by decide) rfl
    (by decide) (by intro d hd; simp at hd; subst hd; decide)
    (by decide) (by intro d hd; simp at hd)
